import Mathlib

/-!
# tt: a serial terminal relay (`src/tt.c`)

A shallow embedding of the whole program: the terminal mode helpers
`setup_tty`, `restore_tty`, `setup_term`, the relay loop `do_connect`, the
commands (`do_log`, `do_quit`, the `do_set_*` family, `do_shell`, `do_show`,
`do_help`), the interpreter `handle` with `fuzzy`, `script` and `main`,
together with theorems about them.

Conventions of the embedding.

* The globals of `tt.c` and the part of the operating system the program
  touches (terminal attributes of descriptors 0 and 1, attributes of the open
  device, the `TT_PORT` environment variable) form one record, `Globals`.
* Everything the program does to the outside world is appended, in program
  order, to `Globals.trace`.
* Everything the outside world answers during one pass through `while (1)` is
  one record `Ev`; the loop is run over a list of such records.  What it
  answers while a command runs, and the C library functions `tt.c` does not
  define (`strtol`, the `cfset`/`cfget` speed functions), is one record
  `CmdEnv`.
* A byte is a `Fin 256`.  A C `char` holding a byte is an `Int`: the byte's
  value where plain `char` is unsigned, the value minus 256 for bytes above 127
  where plain `char` is signed (`Globals.char_signed`).
-/

namespace TT

/-! ## Terminal attributes -/

/-- The fields of `struct termios` the program reads or writes. -/
structure Termios where
  c_iflag : Nat
  c_oflag : Nat
  c_cflag : Nat
  c_lflag : Nat
  c_cc : List Nat
  deriving DecidableEq, Repr

/-- The expression `x & ~m` on flag words. -/
def clear_bits (x m : Nat) : Nat := x ^^^ (x &&& m)

/- Flag values of `<termios.h>` on Linux (asm-generic/termbits.h). -/
def IGNBRK : Nat := 0o1
def BRKINT : Nat := 0o2
def PARMRK : Nat := 0o10
def ISTRIP : Nat := 0o40
def INLCR : Nat := 0o100
def IGNCR : Nat := 0o200
def ICRNL : Nat := 0o400
def IXON : Nat := 0o2000
def OPOST : Nat := 0o1
def ONLCR : Nat := 0o4
def CSIZE : Nat := 0o60
def CS8 : Nat := 0o60
def CSTOPB : Nat := 0o100
def CREAD : Nat := 0o200
def PARENB : Nat := 0o400
def HUPCL : Nat := 0o2000
def CLOCAL : Nat := 0o4000
def ISIG : Nat := 0o1
def ICANON : Nat := 0o2
def ECHO : Nat := 0o10
def ECHONL : Nat := 0o100
def IEXTEN : Nat := 0o100000
def VTIME : Nat := 5
def VMIN : Nat := 6

/-- The C library function `cfmakeraw`, as termios(3) documents it. -/
def cfmakeraw (t : Termios) : Termios :=
  { c_iflag := clear_bits t.c_iflag
      (IGNBRK ||| BRKINT ||| PARMRK ||| ISTRIP ||| INLCR ||| IGNCR ||| ICRNL ||| IXON)
    c_oflag := clear_bits t.c_oflag OPOST
    c_lflag := clear_bits t.c_lflag (ECHO ||| ECHONL ||| ICANON ||| ISIG ||| IEXTEN)
    c_cflag := clear_bits t.c_cflag (CSIZE ||| PARENB) ||| CS8
    c_cc := (t.c_cc.set VMIN 1).set VTIME 0 }

/-! ## Bytes, characters and formatting -/

/-- One byte of data. -/
abbrev Byte := Fin 256

/-- The value of a plain `char` that holds the byte `b`, after the usual
promotion to `int`. -/
def to_char (char_signed : Bool) (b : Byte) : Int :=
  if char_signed = true ∧ 128 ≤ b.val then (b.val : Int) - 256 else (b.val : Int)

/-- The function `tolower` in the "C" locale (the program never calls
`setlocale`): only the letters `A` to `Z` change. -/
def tolower (c : Int) : Int :=
  if 65 ≤ c ∧ c ≤ 90 then c + 32 else c

/-- An `int` passed where `printf` expects an `unsigned int`. -/
def as_unsigned (v : Int) : Nat := (v % 4294967296).toNat

/-- Left padding with `'0'` up to a minimum width. -/
def zero_pad (width : Nat) (ds : List Char) : List Char :=
  List.replicate (width - ds.length) '0' ++ ds

/-- The conversion `%03o` of `printf`. -/
def fmt_o3 (v : Int) : String :=
  String.mk (zero_pad 3 (Nat.toDigits 8 (as_unsigned v)))

/-- The conversion `%02x` of `printf`. -/
def fmt_02x (v : Int) : List Char :=
  zero_pad 2 (Nat.toDigits 16 (as_unsigned v))

/-- The bytes of a C string. -/
def c_bytes (cs : List Char) : List Byte :=
  cs.map (fun ch => Fin.ofNat ch.toNat)

/-- The text `sprintf(s, "[%02x]", v)` leaves in `s`. -/
def sprintf_hex (v : Int) : List Char :=
  ['['] ++ fmt_02x v ++ [']']

/-! ## Effects and program state -/

/-- What the program does to the outside world, one entry per call. -/
inductive Eff where
  /-- A line on `stderr` through `fprintf`. -/
  | stderr (s : String)
  /-- The call `perror(s)`. -/
  | perror (s : String)
  /-- Text on `stdout` through `printf` or `puts` (buffered). -/
  | printf (s : String)
  /-- The call `fflush(stdout)`. -/
  | fflush
  /-- The call `write(fd, ..)` with the bytes handed over (the bytes that were
  transferred, where the program looks at the result). -/
  | write (fd : Int) (bytes : List Byte)
  /-- The call `open(path, O_RDWR | O_NONBLOCK)`. -/
  | open_port (path : String)
  /-- The call `close(fd)`. -/
  | close (fd : Int)
  /-- The call `tcsendbreak(fd, duration)`. -/
  | tcsendbreak (fd : Int) (duration : Int)
  /-- The call `system(getenv("SHELL"))`. -/
  | shell
  /-- The call `usleep(1)`. -/
  | usleep
  /-- The call `system(cmd)` of the `shell` command. -/
  | shell_command (cmd : String)
  /-- The call `open(fn, flags, 0777)` of the `log` command; `append` tells
  `O_APPEND` from `O_TRUNC`. -/
  | open_log (fn : String) (append : Bool)
  /-- The call `ioctl(fd, TIOCMSET, &flags)`. -/
  | tiocmset (fd : Int) (flags : Nat)
  deriving DecidableEq, Repr

/-- The globals of `tt.c` and the outside state the program acts on. -/
structure Globals where
  term_name : Option String
  term_fd : Int
  log_fd : Int
  stdin_termios : Termios
  stdout_termios : Termios
  escape_char : Int
  break_duration : Int
  flag_nlcr : Int
  flag_hex : Int
  /-- Whether plain `char` is signed on the platform (it is on x86 Linux). -/
  char_signed : Bool
  /-- Whether `FD_SET` checks its descriptor and aborts the process when it is
  negative, as glibc does in a build with `_FORTIFY_SOURCE`. -/
  fd_set_checked : Bool
  /-- Current attributes of descriptor 0. -/
  tty0 : Termios
  /-- Current attributes of descriptor 1. -/
  tty1 : Termios
  /-- Whether descriptors 0 and 1 are the same terminal. -/
  same_tty : Bool
  /-- Whether `tcgetattr`/`tcsetattr` succeed on descriptor 0. -/
  tty0_ok : Bool
  /-- Whether `tcgetattr`/`tcsetattr` succeed on descriptor 1. -/
  tty1_ok : Bool
  /-- Current attributes of the open device. -/
  dev_attr : Termios
  /-- Whether `tcgetattr`/`tcsetattr` succeed on the device. -/
  dev_tc_ok : Bool
  /-- The environment variable `TT_PORT`. -/
  env_TT_PORT : String
  trace : List Eff
  deriving DecidableEq, Repr

/-- Append one effect to the trace. -/
def emit (e : Eff) (g : Globals) : Globals :=
  { g with trace := g.trace ++ [e] }

/-- The system call `tcsetattr(0, TCSANOW, t)` when it succeeds. -/
def tcset0 (t : Termios) (g : Globals) : Globals :=
  if g.same_tty = true then { g with tty0 := t, tty1 := t } else { g with tty0 := t }

/-- The system call `tcsetattr(1, TCSANOW, t)` when it succeeds. -/
def tcset1 (t : Termios) (g : Globals) : Globals :=
  if g.same_tty = true then { g with tty0 := t, tty1 := t } else { g with tty1 := t }

/-- The attributes `setup_tty` derives from the saved console-in attributes. -/
def raw_termios (flag_nlcr : Int) (saved : Termios) : Termios :=
  let t := cfmakeraw saved
  let t := { t with c_oflag := OPOST }
  if flag_nlcr ≠ 0 then { t with c_oflag := t.c_oflag ||| ONLCR } else t

/-- The function `setup_tty`; `Except.error` is the state at `exit(1)`. -/
def setup_tty (g : Globals) : Except Globals Globals :=
  if g.tty0_ok = false then .error (emit (.perror "tcgetattr stdin") g)
  else
    let g := { g with stdin_termios := g.tty0 }
    if g.tty1_ok = false then .error (emit (.perror "tcgetattr stdout") g)
    else
      let g := { g with stdout_termios := g.tty1 }
      let termios := raw_termios g.flag_nlcr g.stdin_termios
      let g := tcset0 termios g
      let g := tcset1 termios g
      .ok g

/-- The function `restore_tty`; `Except.error` is the state at `exit(1)`. -/
def restore_tty (g : Globals) : Except Globals Globals :=
  if g.tty0_ok = false then .error (emit (.perror "tcsetattr stdin") g)
  else
    let g := tcset0 g.stdin_termios g
    if g.tty1_ok = false then .error (emit (.perror "tcsetattr stdin") g)
    else .ok (tcset1 g.stdout_termios g)

/-- The function `setup_term`, applied to the open device. -/
def setup_term (g : Globals) : Int × Globals :=
  if g.dev_tc_ok = false then (-1, emit (.perror "tcgetattr") g)
  else
    let t := g.dev_attr
    let imask := IGNBRK ||| BRKINT ||| PARMRK ||| ISTRIP ||| INLCR ||| IGNCR ||| ICRNL ||| IXON
    let lmask := ECHO ||| ECHONL ||| ICANON ||| ISIG ||| IEXTEN
    let t := { t with c_iflag := clear_bits t.c_iflag imask }
    let t := { t with c_oflag := clear_bits t.c_oflag OPOST }
    let t := { t with c_lflag := clear_bits t.c_lflag lmask }
    let t := { t with c_cflag := clear_bits t.c_cflag (CSIZE ||| PARENB ||| CSTOPB) }
    let t := { t with c_cflag := t.c_cflag ||| CS8 ||| CREAD }
    (0, { g with dev_attr := t })

/-- The function `do_quit`: the exit status and the state at `exit`. -/
def do_quit (g : Globals) : Int × Globals :=
  let g := if g.term_fd ≠ -1 then emit (.close g.term_fd) g else g
  let g := if g.log_fd ≠ -1 then emit (.close g.log_fd) (emit (.printf "Logging stopped\n") g)
    else g
  (1, emit (.printf "Bye!\n") g)

/-! ## The relay loop of `do_connect` -/

/-- The result of `read(0, &c, 1)`. -/
inductive Rd1 where
  /-- The call returned a negative value. -/
  | err
  /-- The call returned zero. -/
  | eof
  /-- The call returned one byte. -/
  | byte (b : Byte)
  deriving DecidableEq, Repr

/-- What the outside world answers during one pass through `while (1)`. -/
structure Ev where
  /-- Return value of `select`. -/
  select_r : Int
  /-- The test `FD_ISSET(0, &readfds)`. -/
  stdin_ready : Bool
  /-- Result of `read(0, &c, 1)`. -/
  stdin_read : Rd1
  /-- How many times `write(term_fd, &c, 1)` fails with `EAGAIN` first. -/
  eagain : Nat
  /-- Return value of `write(term_fd, &c, 1)` once it no longer fails with
  `EAGAIN`; a negative value is an error other than `EAGAIN`. -/
  write_n : Int
  /-- Return value of `tcsendbreak`. -/
  break_r : Int
  /-- Return value of `open(term_name, O_RDWR | O_NONBLOCK)`. -/
  open_r : Int
  /-- Attributes of the device that `open` returned. -/
  open_attr : Termios
  /-- The test `FD_ISSET(term_fd, &readfds)`. -/
  term_ready : Bool
  /-- Result of `read(term_fd, buf, sizeof(buf))`: `none` is a negative return
  value, `some data` the bytes read. -/
  term_read : Option (List Byte)
  /-- Return value of `write(1, buf, n)`. -/
  stdout_n : Int
  deriving DecidableEq, Repr

/-- The globals together with the locals of `do_connect` that live across
iterations. -/
structure LState where
  g : Globals
  escape_seen : Int
  deriving DecidableEq, Repr

/-- How one half of a loop iteration ends. -/
inductive Phase where
  /-- Control falls through to the rest of the iteration. -/
  | cont (s : LState)
  /-- A `break` out of `while (1)`. -/
  | brk (s : LState)
  /-- The statements `term_close = 0; goto do_close;`. -/
  | close0 (s : LState)
  /-- A call of `exit`. -/
  | exited (code : Int) (g : Globals)
  deriving DecidableEq, Repr

/-- Where `do_connect` stands after some iterations. -/
inductive Outcome where
  /-- Still inside `while (1)`, at the top of the loop body. -/
  | looping (s : LState)
  /-- The function returned `r`. -/
  | returned (r : Int) (g : Globals)
  /-- The process called `exit(code)`. -/
  | exited (code : Int) (g : Globals)
  /-- The process was killed by `abort` inside the C library. -/
  | aborted (g : Globals)
  deriving DecidableEq, Repr

/-- The text of `"Connected, press \\%03o C to quit\n"`. -/
def connected_msg (escape_char : Int) : String :=
  "Connected, press \\" ++ fmt_o3 escape_char ++ " C to quit\n"

/-- The text of `"\nTrying to reconnect to \"%s\"\n"`. -/
def reconnect_msg (name : String) : String :=
  "\nTrying to reconnect to \"" ++ name ++ "\"\n"

/-- The help text printed by the escape command `h` or `?`. -/
def help_msg (escape_char : Int) : String :=
  "\n\\" ++ fmt_o3 escape_char ++ "\tSend \\" ++ fmt_o3 escape_char ++ "\n" ++
  "h or ?\tShow this help message\n" ++
  "!\tStart a shell\n" ++
  "c\tReturn to the command line\n" ++
  "q\tQuit\n" ++
  "Command> "

/-- The first result of `write(term_fd, &c, 1)`. -/
def first_write (ev : Ev) : Int :=
  if ev.eagain = 0 then ev.write_n else -1

/-- The branch `if (c == escape_char)` under `if (escape_seen)`: the escape
character typed twice. -/
def literal_escape (ev : Ev) (b : Byte) (s : LState) : Phase :=
  if s.g.term_fd ≠ -1 then
    let n := first_write ev
    if n < 0 then .brk { s with g := emit (.perror "write term_fd") s.g }
    else if n = 0 then .brk { s with g := emit (.stderr "write term_fd: buffer full?\n") s.g }
    else .brk { s with g := emit (.write s.g.term_fd [b]) s.g }
  else .cont s

/-- The cases `'h'` and `'?'` of the switch. -/
def case_help (s : LState) : Phase :=
  match restore_tty s.g with
  | .error g => .exited 1 g
  | .ok g =>
    let g := emit (.printf (help_msg g.escape_char)) g
    let g := emit .fflush g
    match setup_tty g with
    | .error g => .exited 1 g
    | .ok g => .cont { g := g, escape_seen := 1 }

/-- The case `'!'` of the switch. -/
def case_shell (s : LState) : Phase :=
  match restore_tty s.g with
  | .error g => .exited 1 g
  | .ok g =>
    let g := emit (.printf "\nStarting a shell\n") g
    let g := emit .shell g
    let g := emit (.printf "\nBack at the terminal\n") g
    match setup_tty g with
    | .error g => .exited 1 g
    | .ok g => .cont { s with g := g }

/-- The case `'c'` of the switch. -/
def case_c (s : LState) : Phase :=
  .close0 s

/-- The case `'b'` of the switch. -/
def case_b (ev : Ev) (s : LState) : Phase :=
  let g := emit (.printf "break\n") s.g
  let g := emit (.tcsendbreak g.term_fd g.break_duration) g
  let g := if ev.break_r = -1 then emit (.perror "break") g else g
  let g := emit (.printf "break done\n") g
  .cont { s with g := g }

/-- The case `'q'` of the switch. -/
def case_q (s : LState) : Phase :=
  match restore_tty s.g with
  | .error g => .exited 1 g
  | .ok g => .exited (do_quit g).1 (do_quit g).2

/-- The `default` case of the switch: `write(1, &bell, 1)`. -/
def case_default (s : LState) : Phase :=
  .cont { s with g := emit (.write 1 [7]) s.g }

/-- The statement `switch (tolower(c))`. -/
def control_switch (ev : Ev) (c : Int) (s : LState) : Phase :=
  let t := tolower c
  if t = 104 ∨ t = 63 then case_help s
  else if t = 33 then case_shell s
  else if t = 99 then case_c s
  else if t = 98 then case_b ev s
  else if t = 113 then case_q s
  else case_default s

/-- The label `retry_write` and the block under it; the first argument counts
the `EAGAIN` failures still to come. -/
def retry_write (ev : Ev) (b : Byte) : Nat → LState → Phase
  | k + 1, s =>
    if s.g.term_fd ≠ -1 then retry_write ev b k { s with g := emit .usleep s.g }
    else .cont s
  | 0, s =>
    if s.g.term_fd ≠ -1 then
      if ev.write_n < 0 then .brk { s with g := emit (.stderr "write term_fd: %s (%d)\n") s.g }
      else if ev.write_n = 0 then
        .brk { s with g := emit (.stderr "write term_fd: buffer full?\n") s.g }
      else .cont { s with g := emit (.write s.g.term_fd [b]) s.g }
    else .cont s

/-- What the loop does with one byte `c` read from the console. -/
def console_byte (ev : Ev) (b : Byte) (s : LState) : Phase :=
  let c := to_char s.g.char_signed b
  if s.escape_seen ≠ 0 then
    let s := { s with escape_seen := 0 }
    if c = s.g.escape_char then literal_escape ev b s
    else control_switch ev c s
  else if c = s.g.escape_char then .cont { s with escape_seen := 1 }
  else retry_write ev b ev.eagain s

/-- The block `if (FD_ISSET(0, &readfds))`. -/
def console_half (ev : Ev) (s : LState) : Phase :=
  if ev.stdin_ready = true then
    match ev.stdin_read with
    | .err => .brk { s with g := emit (.perror "read stdin") s.g }
    | .eof => .brk { s with g := emit (.stderr "read stdin: EOF\n") s.g }
    | .byte b => console_byte ev b s
  else .cont s

/-- The four bytes `sprintf(s, "[%02x]", buf[i]); write(1, s, 4);` sends for
the byte `b` of the buffer. -/
def hex_item (char_signed : Bool) (b : Byte) : List Byte :=
  (c_bytes (sprintf_hex (to_char char_signed b))).take 4

/-- The block `if (flag_hex)`: four bytes for every byte of the chunk, then
CR LF. -/
def hex_trace (buf : List Byte) (g : Globals) : Globals :=
  let g := buf.foldl (fun g b => emit (.write 1 (hex_item g.char_signed b)) g) g
  emit (.write 1 [13, 10]) g

/-- The block `if (term_fd == -1) .. else if (FD_ISSET(term_fd, &readfds)) ..`. -/
def device_half (ev : Ev) (s : LState) : Phase :=
  if s.g.term_fd = -1 then
    match s.g.term_name with
    | none => .cont s
    | some name =>
      let g := emit (.open_port name) s.g
      let g := { g with term_fd := ev.open_r }
      if g.term_fd ≠ -1 then
        let g := { g with dev_attr := ev.open_attr }
        let g := (setup_term g).2
        match restore_tty g with
        | .error g => .exited 1 g
        | .ok g =>
          let g := emit (.stderr (connected_msg g.escape_char)) g
          match setup_tty g with
          | .error g => .exited 1 g
          | .ok g => .cont { s with g := g }
      else .cont { s with g := g }
  else if ev.term_ready = true then
    match ev.term_read with
    | none => .brk { s with g := emit (.perror "read term_fd") s.g }
    | some data =>
      let buf := data.take 1024
      if buf.length = 0 then .brk { s with g := emit (.stderr "read term_fd: EOF\n") s.g }
      else if ev.stdout_n ≠ buf.length then
        let g := emit (.write 1 (buf.take ev.stdout_n.toNat)) s.g
        .brk { s with g := emit (.perror "write stdout") g }
      else
        let g := emit (.write 1 buf) s.g
        let g := if g.log_fd ≠ 0 then emit (.write g.log_fd buf) g else g
        let g := if g.flag_hex ≠ 0 then hex_trace buf g else g
        .cont { s with g := g }
  else .cont s

/-- The label `reconnect` down to the top of `while (1)`. -/
def reconnect (s : LState) : Outcome :=
  match s.g.term_name with
  | none => .returned 0 (emit (.stderr "No port selected\n") s.g)
  | some name =>
    let g := if s.g.term_fd = -1 then emit (.stderr (reconnect_msg name)) s.g
      else emit (.stderr (connected_msg s.g.escape_char)) s.g
    match setup_tty g with
    | .error g => .exited 1 g
    | .ok g => .looping { s with g := g }

/-- The label `do_close` to the end of the function. -/
def do_close (term_close : Int) (s : LState) : Outcome :=
  match restore_tty s.g with
  | .error g => .exited 1 g
  | .ok g =>
    if term_close ≠ 0 ∧ g.term_fd ≠ -1 then
      let g := emit (.close g.term_fd) g
      let g := { g with term_fd := -1 }
      reconnect { s with g := g }
    else .returned 1 (emit (.stderr "\nBack at command prompt\n") g)

/-- One pass through the body of `while (1)` from the call of `select` on,
followed by whatever a `break` or `goto` out of it leads to. -/
def relay_pass (ev : Ev) (s : LState) : Outcome :=
  if ev.select_r < 0 then do_close 1 { s with g := emit (.perror "select") s.g }
  else
    match console_half ev s with
    | .exited code g => .exited code g
    | .brk s => do_close 1 s
    | .close0 s => do_close 0 s
    | .cont s =>
      match device_half ev s with
      | .exited code g => .exited code g
      | .brk s => do_close 1 s
      | .close0 s => do_close 0 s
      | .cont s => .looping s

/-- The message of glibc when a checked `FD_SET` fails. -/
def fd_set_msg : String :=
  "*** buffer overflow detected ***: terminated\n"

/-- One pass through the body of `while (1)`.  It starts with `FD_ZERO`,
`FD_SET(0, &readfds)` and `FD_SET(term_fd, &readfds)`; the last is undefined
when `term_fd` is -1: a checked `FD_SET` aborts the process there, the plain
macro is taken to leave everything the program looks at as it was.  (The
descriptors `open` returns are taken to be below `FD_SETSIZE`.) -/
def relay_iteration (ev : Ev) (s : LState) : Outcome :=
  if s.g.fd_set_checked = true ∧ s.g.term_fd = -1 then
    .aborted (emit (.stderr fd_set_msg) s.g)
  else relay_pass ev s

/-- Run the loop over the answers of the outside world, one record per
iteration, from a given point. -/
def run : List Ev → Outcome → Outcome
  | [], o => o
  | ev :: evs, .looping s => run evs (relay_iteration ev s)
  | _ :: _, o => o

/-- The function `do_connect`, run for as many iterations as there are
records. -/
def do_connect (evs : List Ev) (g : Globals) : Outcome :=
  run evs (reconnect { g := g, escape_seen := 0 })

/-! ## `do_set_escape` -/

/-- The function `isspace` in the "C" locale. -/
def c_isspace (ch : Char) : Bool :=
  ch = ' ' || ch = '\t' || ch = '\n' || ch = '\r' || ch.toNat = 11 || ch.toNat = 12

/-- The function `do_set_escape`, given what `strtoul(args, &p, 10)` answers:
`c` is its value as stored in `long c`, `rest` the text `p` points to. -/
def do_set_escape (args : String) (c : Int) (rest : List Char) (g : Globals) :
    Int × Globals :=
  if args.data.head? = none ∨ args.data.head? = some '?' then
    (0, emit (.stderr ("Usage: set escape <character>\n" ++
      "Where character is an ASCII value from 0 to 255\n")) g)
  else
    let p := rest.dropWhile c_isspace
    if p ≠ [] ∨ c < 0 ∨ c > 255 then
      (0, emit (.stderr "Invalid parameter, try \"set escape ?\" for help\n") g)
    else (1, { g with escape_char := c })

/-! ## `do_set_port` -/

/-- The function `do_set_port`, given what `open` answers. -/
def do_set_port (args : String) (open_r : Int) (open_attr : Termios) (g : Globals) :
    Int × Globals :=
  if args.data.head? = none ∨ args.data.head? = some '?' then
    (0, emit (.printf "Usage: set port <device>\n") g)
  else
    let g := { g with term_name := none }
    let g := { g with env_TT_PORT := "" }
    let g := if g.term_fd ≠ -1 then emit (.close g.term_fd) g else g
    let g := emit (.open_port args) g
    let g := { g with term_fd := open_r }
    if g.term_fd = -1 then (0, emit (.stderr ("failed to open " ++ args ++ ": %s\n")) g)
    else
      let g := { g with term_name := some args }
      let g := { g with env_TT_PORT := args }
      let g := { g with dev_attr := open_attr }
      (1, (setup_term g).2)

/-! ## Strings of the command line -/

/-- The function `tolower` applied to a character of a command line. -/
def ch_lower (ch : Char) : Int :=
  tolower (ch.toNat : Int)

/-- The inner loop of `fuzzy` that matches the input against the beginning of
a pattern word; the result is what is left of the input and of the pattern. -/
def match_word : List Char → List Char → List Char × List Char
  | p :: ps, i :: is =>
    if c_isspace i = false ∧ ch_lower i = ch_lower p then match_word ps is else (i :: is, p :: ps)
  | ps, is => (is, ps)

/-- The loop `while (*pattern)` of `fuzzy`; the first argument bounds the
number of passes (every pass shortens the pattern). -/
def fuzzy_loop : Nat → List Char → List Char → Option (List Char)
  | 0, _, _ => none
  | fuel + 1, pattern, input =>
    if pattern = [] then some input
    else if input = [] then some input
    else
      let r := match_word pattern input
      if r.1.head?.any (fun ch => c_isspace ch = false) then none
      else
        let input := r.1.dropWhile c_isspace
        let pattern := r.2.dropWhile (fun ch => c_isspace ch = false)
        let pattern := pattern.dropWhile c_isspace
        fuzzy_loop fuel pattern input

/-- The function `fuzzy`: `none` for the return value 0, `some args` for the
return value 1 with `*args` set. -/
def fuzzy (pattern input : List Char) : Option (List Char) :=
  fuzzy_loop (pattern.length + 1) pattern input

/-- The test `strncasecmp(a, b, n) == 0`. -/
def strncasecmp_eq : Nat → List Char → List Char → Bool
  | 0, _, _ => true
  | _ + 1, [], [] => true
  | n + 1, a :: as, b :: bs => if ch_lower a = ch_lower b then strncasecmp_eq n as bs else false
  | _ + 1, _, _ => false

/-- The difference `space - args` after the loop that moves `space` to the end
of the first word of `args`. -/
def word_len (args : List Char) : Nat :=
  (args.takeWhile (fun ch => c_isspace ch = false)).length

/-- The test `space-args > 1 && strncasecmp(args, "on", space-args) == 0`. -/
def says_on (args : String) : Bool :=
  decide (1 < word_len args.data) && strncasecmp_eq (word_len args.data) args.data "on".data

/-- The test `space-args > 1 && strncasecmp(args, "off", space-args) == 0`. -/
def says_off (args : String) : Bool :=
  decide (1 < word_len args.data) && strncasecmp_eq (word_len args.data) args.data "off".data

/-- A `long` stored into an `int`. -/
def to_int32 (v : Int) : Int :=
  (v + 2147483648) % 4294967296 - 2147483648

/-! ## The speed table -/

/-- The table `speedtab` with the codes of Linux, the closing entry `-1, -1`
left out. -/
def speedtab : List (Int × Int) :=
  [(50, 0o1), (75, 0o2), (110, 0o3), (134, 0o4), (150, 0o5), (200, 0o6), (300, 0o7),
   (600, 0o10), (1200, 0o11), (1800, 0o12), (2400, 0o13), (4800, 0o14), (9600, 0o15),
   (19200, 0o16), (38400, 0o17), (57600, 0o10001), (115200, 0o10002), (0, 0)]

/-- The function `speed_to_code`. -/
def speed_to_code (speed : Int) : Int :=
  match speedtab.find? (fun sp => sp.1 = speed) with
  | some sp => sp.2
  | none => -1

/-- The function `code_to_speed`. -/
def code_to_speed (code : Int) : Int :=
  match speedtab.find? (fun sp => sp.2 = code) with
  | some sp => sp.1
  | none => -1

/-! ## The commands -/

def CRTSCTS : Nat := 0o20000000000
def TIOCM_DTR : Nat := 0x002
def TIOCM_RTS : Nat := 0x004

/-- What the outside world and the C library answer while one command runs. -/
structure CmdEnv where
  /-- Value of `strtol(args, &p, 10)` or `strtoul(args, &p, 10)`, as a `long`. -/
  strtol_val : Int
  /-- The text `p` points to afterwards. -/
  strtol_rest : List Char
  /-- Return value of `open`. -/
  open_r : Int
  /-- Attributes of the device `open` returned. -/
  open_attr : Termios
  /-- Return value of `ioctl(term_fd, TIOCMGET, &flags)`. -/
  tiocmget_r : Int
  /-- The modem lines `TIOCMGET` stores in `flags`. -/
  modem_flags : Nat
  /-- Return value of `ioctl(term_fd, TIOCMSET, &flags)`. -/
  tiocmset_r : Int
  /-- Return value of `system`. -/
  system_r : Int
  /-- The C library function `cfsetospeed`. -/
  cfsetospeed : Termios → Int → Termios
  /-- The C library function `cfsetispeed`. -/
  cfsetispeed : Termios → Int → Termios
  /-- The C library function `cfgetispeed`. -/
  cfgetispeed : Termios → Int
  /-- What the outside world answers in each iteration of a relay session. -/
  evs : List Ev

/-- The function `do_log`.  The statement `if (!fn) fn = "tt.log";` is left
out: `fn` is assigned again by the call of `fuzzy` that picks the flags, or the
function returns before `fn` is used. -/
def do_log (args : String) (env : CmdEnv) (g : Globals) : Int × Globals :=
  if args.data.head? = none ∨ args.data.head? = some '?' then
    (0, emit (.stderr "Usage: log overwrite|append|stop <filename>\n") g)
  else if g.log_fd = -1 ∧ (fuzzy "stop".data args.data).isSome = true then
    (1, emit (.printf "No log active\n") g)
  else
    let g := if g.log_fd ≠ -1 then
        { emit (.close g.log_fd) (emit (.stderr "Logging stopped\n") g) with log_fd := -1 }
      else g
    if (fuzzy "stop".data args.data).isSome = true then (1, g)
    else
      let start := fun (fn : List Char) (append : Bool) =>
        let g := emit (.open_log (String.mk fn) append) g
        let g := { g with log_fd := env.open_r }
        if g.log_fd = -1 then
          (0, emit (.stderr ("failed to open \"" ++ String.mk fn ++ "\" for logging: %s\n")) g)
        else ((1 : Int), emit (.stderr ("Logging started to \"" ++ String.mk fn ++ "\"\n")) g)
      match fuzzy "overwrite".data args.data with
      | some fn => start fn false
      | none =>
        match fuzzy "append".data args.data with
        | some fn => start fn true
        | none => (0, emit (.stderr "Invalid parameter, try \"log ?\" for help\n") g)

/-- The function `do_set_break`. -/
def do_set_break (args : String) (env : CmdEnv) (g : Globals) : Int × Globals :=
  if args.data.head? = none ∨ args.data.head? = some '?' then
    (0, emit (.stderr ("Usage: set break <duration>\n" ++
      "Where duration is in 1/10 seconds from 1 to 50\n")) g)
  else
    let p := env.strtol_rest.dropWhile c_isspace
    if p ≠ [] ∨ env.strtol_val < 1 then
      (0, emit (.stderr "Invalid parameter, try \"set break ?\" for help\n") g)
    else (1, { g with break_duration := to_int32 env.strtol_val })

/-- The function `do_set_flow`. -/
def do_set_flow (args : String) (g : Globals) : Int × Globals :=
  if args.data.head? = none ∨ args.data.head? = some '?' then
    (0, emit (.stderr "Usage: set flow rtscts|none\n") g)
  else if strncasecmp_eq (word_len args.data) args.data "none".data = false ∧
      strncasecmp_eq (word_len args.data) args.data "rtscts".data = false then
    (0, emit (.stderr "Invalid parameter, try \"set flow ?\" for help\n") g)
  else
    let flags := if strncasecmp_eq (word_len args.data) args.data "none".data = true then 0
      else CRTSCTS
    if g.term_fd = -1 then (0, emit (.printf "No port selected\n") g)
    else if g.dev_tc_ok = false then (0, emit (.perror "tcgetattr") g)
    else
      let termios := g.dev_attr
      let termios := { termios with c_cflag := clear_bits termios.c_cflag CRTSCTS }
      let termios := { termios with c_cflag := termios.c_cflag ||| flags }
      if g.dev_tc_ok = false then (0, emit (.perror "tcsetattr") g)
      else (1, { g with dev_attr := termios })

/-- The function `do_set_nlcr`. -/
def do_set_nlcr (args : String) (g : Globals) : Int × Globals :=
  if args.data.head? = none ∨ args.data.head? = some '?' then
    (0, emit (.stderr "Usage: set nlcr on|off\n") g)
  else if says_on args = true then (1, { g with flag_nlcr := 1 })
  else if says_off args = true then (1, { g with flag_nlcr := 0 })
  else (0, emit (.stderr "Invalid parameter, try \"set nlcr ?\" for help\n") g)

/-- The function `do_set_modem`. -/
def do_set_modem (args : String) (g : Globals) : Int × Globals :=
  if args.data.head? = none ∨ args.data.head? = some '?' then
    (0, emit (.stderr "Usage: set modem on|off\n") g)
  else if says_on args = false ∧ says_off args = false then
    (0, emit (.stderr "Invalid parameter, try \"set modem ?\" for help\n") g)
  else
    let flags := if says_on args = true then HUPCL else CLOCAL
    if g.term_fd = -1 then (0, emit (.printf "No port selected\n") g)
    else if g.dev_tc_ok = false then (0, emit (.perror "tcgetattr") g)
    else
      let termios := g.dev_attr
      let termios := { termios with c_cflag := clear_bits termios.c_cflag (CLOCAL ||| HUPCL) }
      let termios := { termios with c_cflag := termios.c_cflag ||| flags }
      if g.dev_tc_ok = false then (0, emit (.perror "tcsetattr") g)
      else (1, { g with dev_attr := termios })

/-- The function `do_set_hex`. -/
def do_set_hex (args : String) (g : Globals) : Int × Globals :=
  if args.data.head? = none ∨ args.data.head? = some '?' then
    (0, emit (.stderr "Usage: set hex on|off\n") g)
  else if says_on args = false ∧ says_off args = false then
    (0, emit (.stderr "Invalid parameter, try \"set hex ?\" for help\n") g)
  else
    let flags := if says_on args = true then HUPCL else CLOCAL
    if g.term_fd = -1 then (0, emit (.printf "No port selected\n") g)
    else if g.dev_tc_ok = false then (0, emit (.perror "tcgetattr") g)
    else
      let termios := g.dev_attr
      let termios := { termios with c_cflag := clear_bits termios.c_cflag (CLOCAL ||| HUPCL) }
      let termios := { termios with c_cflag := termios.c_cflag ||| flags }
      if g.dev_tc_ok = false then (0, emit (.perror "tcsetattr") g)
      else (1, { g with dev_attr := termios })

/-- The body shared by `do_set_rts` and `do_set_dtr`, for the modem line
`line` and the command name `name`. -/
def set_modem_line (line : Nat) (name : String) (args : String) (env : CmdEnv)
    (g : Globals) : Int × Globals :=
  if args.data.head? = none ∨ args.data.head? = some '?' then
    (0, emit (.printf ("Usage: set " ++ name ++ " on/off\n")) g)
  else if g.term_fd = -1 then (0, emit (.printf "No port selected\n") g)
  else if env.tiocmget_r = -1 then (0, emit (.perror "TIOCMGET") g)
  else if says_on args = false ∧ says_off args = false then
    (0, emit (.stderr ("Invalid parameter, try \"set " ++ name ++ " ?\" for help\n")) g)
  else
    let flags := if says_on args = true then env.modem_flags ||| line
      else clear_bits env.modem_flags line
    let g := emit (.tiocmset g.term_fd flags) g
    if env.tiocmset_r = -1 then (0, emit (.perror "TIOCMSET") g)
    else (1, g)

/-- The function `do_set_rts`. -/
def do_set_rts (args : String) (env : CmdEnv) (g : Globals) : Int × Globals :=
  set_modem_line TIOCM_RTS "rts" args env g

/-- The function `do_set_dtr`. -/
def do_set_dtr (args : String) (env : CmdEnv) (g : Globals) : Int × Globals :=
  set_modem_line TIOCM_DTR "dtr" args env g

/-- The list of speeds `do_set_speed` prints, one `printf` or `putchar` per
entry of the trace. -/
def speed_usage : List (Int × Int) → Nat → Globals → Globals
  | [], _, g => g
  | sp :: rest, i, g =>
    if sp.1 = 0 then g
    else
      let g := if i ≠ 0 then emit (.printf ",") g else g
      let g := if i % 10 = 0 then emit (.printf "\n    ") g else emit (.printf " ") g
      speed_usage rest (i + 1) (emit (.printf (toString sp.1)) g)

/-- The function `do_set_speed`. -/
def do_set_speed (args : String) (env : CmdEnv) (g : Globals) : Int × Globals :=
  if args.data.head? = none ∨ args.data.head? = some '?' then
    let g := emit (.printf ("Usage: set speed <speed>\n" ++ "Where speed is one of: ")) g
    (0, emit (.printf "\n") (speed_usage speedtab 0 g))
  else
    let p := env.strtol_rest.dropWhile c_isspace
    if p ≠ [] ∨ speed_to_code env.strtol_val = -1 then
      (0, emit (.stderr "Invalid parameter, try \"set speed ?\" for help\n") g)
    else if g.term_fd = -1 then (0, emit (.printf "No port selected\n") g)
    else if g.dev_tc_ok = false then (0, emit (.perror "tcgetattr") g)
    else
      let termios := env.cfsetospeed g.dev_attr (speed_to_code env.strtol_val)
      let termios := env.cfsetispeed termios (speed_to_code env.strtol_val)
      if g.dev_tc_ok = false then (0, emit (.perror "tcsetattr") g)
      else (1, { g with dev_attr := termios })

/-- The function `do_shell`. -/
def do_shell (args : String) (env : CmdEnv) (g : Globals) : Int × Globals :=
  if args.data ≠ [] then
    (if env.system_r = 0 then 1 else 0, emit (.shell_command args) g)
  else (if env.system_r = 0 then 1 else 0, emit .shell g)

/-- The function `do_show`. -/
def do_show (env : CmdEnv) (g : Globals) : Int × Globals :=
  let g1 := emit (.printf "global settings:\n") g
  let g2 := emit (.printf ("    break-duration: " ++ toString g.break_duration ++
    " (1/10 seconds)\n")) g1
  let g3 := emit (.printf ("    escape-char: " ++ toString g.escape_char ++ "\n")) g2
  let g4 := emit (.printf "\n") g3
  let g5 := emit (.printf "port settings:\n") g4
  if g.term_fd = -1 then
    (1, emit (.printf "\n") (emit (.printf "    no port selected\n") g5))
  else if g.dev_tc_ok = false then (0, emit (.perror "tcgetattr") g5)
  else
    let termios := g.dev_attr
    let speed := code_to_speed (env.cfgetispeed termios)
    let g6 := if speed = -1 then emit (.printf "    speed:  unknown\n") g5
      else emit (.printf ("    speed:  " ++ toString speed ++ "\n")) g5
    let g7 := if termios.c_cflag &&& CRTSCTS ≠ 0 then emit (.printf "    flow:   rtscts\n") g6
      else emit (.printf "    flow:   none\n") g6
    let g8 := if termios.c_cflag &&& CLOCAL ≠ 0 then emit (.printf "    modem:  off\n") g7
      else emit (.printf "    modem:  on\n") g7
    (1, emit (.printf "\n") g8)

/-! ## The command interpreter -/

/-- The functions the table `commands` points to. -/
inductive Cmd where
  | connect
  | help
  | log
  | quit
  | set_help
  | set_break
  | set_escape
  | set_flow
  | set_hex
  | set_modem
  | set_nlcr
  | set_port
  | set_rts
  | set_dtr
  | set_speed
  | shell
  | show
  deriving DecidableEq, Repr

/-- One entry of the table `commands`. -/
structure Command where
  name : String
  func : Cmd
  help : Option String
  deriving DecidableEq, Repr

/-- The table `commands`, the closing `NULL` entry left out. -/
def commands : List Command :=
  [ { name := "connect", func := .connect, help := some "connect" },
    { name := "help", func := .help, help := some "help or ?" },
    { name := "log", func := .log, help := some "log overwrite|append|stop [filename]" },
    { name := "quit", func := .quit, help := some "quit" },
    { name := "set ?", func := .set_help, help := none },
    { name := "set break", func := .set_break, help := some "set break <duration>" },
    { name := "set escape", func := .set_escape, help := some "set escape <character>" },
    { name := "set flow", func := .set_flow, help := some "set flow rtscts|none" },
    { name := "set hex", func := .set_hex, help := some "set hex on|off" },
    { name := "set modem", func := .set_modem, help := some "set modem on|off" },
    { name := "set nlcr", func := .set_nlcr, help := some "set speed on|off" },
    { name := "set port", func := .set_port, help := some "set port <device>" },
    { name := "set rts", func := .set_rts, help := some "set rts on|off" },
    { name := "set dtr", func := .set_dtr, help := some "set dtr on|off" },
    { name := "set speed", func := .set_speed, help := some "set speed <speed>" },
    { name := "shell", func := .shell, help := some "shell [command] or ![command]" },
    { name := "show", func := .show, help := some "show" } ]

/-- The loop that prints the help line of every command whose name `fuzzy`
matches against `input`. -/
def print_matching (input : List Char) : List Command → Globals → Globals
  | [], g => g
  | cmd :: rest, g =>
    match fuzzy cmd.name.data input, cmd.help with
    | some _, some h => print_matching input rest (emit (.printf ("    " ++ h ++ "\n")) g)
    | _, _ => print_matching input rest g

/-- The function `do_help`. -/
def do_help (args : String) (g : Globals) : Int × Globals :=
  (0, emit (.printf "\n") (print_matching args.data commands g))

/-- The function `do_set_help`. -/
def do_set_help (g : Globals) : Int × Globals :=
  (0, emit (.printf "\n") (print_matching "set".data commands g))

/-- The call `match->func(args, 0)`. -/
def call (f : Cmd) (args : String) (env : CmdEnv) (g : Globals) : Outcome :=
  let ret := fun (r : Int × Globals) => Outcome.returned r.1 r.2
  match f with
  | .connect => do_connect env.evs g
  | .help => ret (do_help args g)
  | .log => ret (do_log args env g)
  | .quit => .exited (do_quit g).1 (do_quit g).2
  | .set_help => ret (do_set_help g)
  | .set_break => ret (do_set_break args env g)
  | .set_escape => ret (do_set_escape args env.strtol_val env.strtol_rest g)
  | .set_flow => ret (do_set_flow args g)
  | .set_hex => ret (do_set_hex args g)
  | .set_modem => ret (do_set_modem args g)
  | .set_nlcr => ret (do_set_nlcr args g)
  | .set_port => ret (do_set_port args env.open_r env.open_attr g)
  | .set_rts => ret (do_set_rts args env g)
  | .set_dtr => ret (do_set_dtr args env g)
  | .set_speed => ret (do_set_speed args env g)
  | .shell => ret (do_shell args env g)
  | .show => ret (do_show env g)

/-- What the search loop of `handle` has found so far. -/
inductive Lookup where
  /-- No command matched (`match == NULL`). -/
  | nothing
  /-- One command matched, with the arguments `fuzzy` stored. -/
  | one (f : Cmd) (args : List Char)
  /-- A second command matched. -/
  | ambiguous
  deriving DecidableEq, Repr

/-- The search loop of `handle` over the table. -/
def lookup (s : List Char) : List Command → Lookup → Lookup
  | [], found => found
  | cmd :: rest, found =>
    match fuzzy cmd.name.data s with
    | none => lookup s rest found
    | some args =>
      match found with
      | .nothing => lookup s rest (.one cmd.func args)
      | _ => .ambiguous

/-- The loop of `handle` that cuts white space off the right end of `s`; the
first character stays. -/
def strip_right : List Char → List Char
  | [] => []
  | c :: cs => c :: (cs.reverse.dropWhile c_isspace).reverse

/-- The function `handle`. -/
def handle (line : List Char) (env : CmdEnv) (g : Globals) : Outcome :=
  let s := line.dropWhile c_isspace
  let s := strip_right s
  match s with
  | [] => .returned 1 g
  | c :: rest =>
    if c = '?' then .returned (do_help (String.mk rest) g).1 (do_help (String.mk rest) g).2
    else if c = '!' then
      .returned (do_shell (String.mk rest) env g).1 (do_shell (String.mk rest) env g).2
    else
      match lookup s commands .nothing with
      | .ambiguous =>
        let g := emit (.printf "ambiguous command, the following commands match:\n") g
        .returned 0 (emit (.printf "\n") (print_matching s commands g))
      | .one f args => call f (String.mk args) env g
      | .nothing => .returned 0 (emit (.printf ("unknown command '" ++ String.mk s ++ "'\n")) g)

/-- One line of input with what the outside world answers while the command on
it runs. -/
structure Line where
  text : List Char
  env : CmdEnv

/-- The loop of `script` over the lines `fgets` delivers. -/
def script_lines (name : String) : List Line → Nat → Globals → Outcome
  | [], _, g => .returned 1 g
  | l :: rest, line, g =>
    let g := emit (.printf (String.mk l.text)) g
    match handle l.text l.env g with
    | .returned r g =>
      if r = 0 then
        .returned 0 (emit (.stderr (name ++ ": error at line " ++ toString (line + 1) ++
          ", aborting script\n")) g)
      else script_lines name rest (line + 1) g
    | o => o

/-- The function `script`; `fn` is the file name `snprintf` builds, `file` the
lines of the file, `none` when `fopen` fails. -/
def script (name fn : String) (file : Option (List Line)) (g : Globals) : Outcome :=
  match file with
  | none => .returned 0 (emit (.stderr ("could not run script \"" ++ fn ++ "\": %s\n")) g)
  | some lines => script_lines name lines 0 (emit (.stderr ("Running script \"" ++ fn ++ "\"\n")) g)

/-- Where the whole program stands. -/
inductive Top where
  /-- Blocked in `fgets` at the prompt. -/
  | waiting (g : Globals)
  /-- Inside the loop of `do_connect`. -/
  | relaying (s : LState)
  /-- After `exit(code)`. -/
  | exited (code : Int) (g : Globals)
  /-- Killed by `abort` inside the C library. -/
  | aborted (g : Globals)
  deriving DecidableEq, Repr

/-- The globals at this point of the program. -/
def Top.globals : Top → Globals
  | .waiting g => g
  | .relaying s => s.g
  | .exited _ g => g
  | .aborted g => g

/-- What `fgets(s, sizeof(s), stdin)` delivers at the prompt. -/
inductive Input where
  /-- A line. -/
  | line (l : Line)
  /-- The end of the input (`fgets` returns `NULL`). -/
  | eof

/-- The prompt loop of `main`, entered after `"> "` has been printed. -/
def prompt_loop : List Input → Globals → Top
  | [], g => .waiting g
  | .eof :: _, g => .exited (do_quit g).1 (do_quit g).2
  | .line l :: rest, g =>
    match handle l.text l.env g with
    | .returned _ g => prompt_loop rest (emit .fflush (emit (.printf "> ") g))
    | .looping s => .relaying s
    | .exited code g => .exited code g
    | .aborted g => .aborted g

/-- The values the globals have when `main` starts. -/
def static_init (os : Globals) : Globals :=
  { os with
    term_name := none, term_fd := 0, log_fd := 0,
    stdin_termios :=
      { c_iflag := 0, c_oflag := 0, c_cflag := 0, c_lflag := 0, c_cc := List.replicate 32 0 },
    stdout_termios :=
      { c_iflag := 0, c_oflag := 0, c_cflag := 0, c_lflag := 0, c_cc := List.replicate 32 0 },
    escape_char := 28, break_duration := 5, flag_nlcr := 0, flag_hex := 0, trace := [] }

/-- The function `main`: `argv` without the program name, the script file if
one is named, the input at the prompt, and the state of the outside world in
`os` (the program's own globals in `os` are not looked at). -/
def tt_main (argv : List String) (fn : String) (file : Option (List Line))
    (input : List Input) (os : Globals) : Top :=
  let g := static_init os
  let g := { g with term_fd := -1 }
  let g := { g with log_fd := -1 }
  let g := { g with env_TT_PORT := "" }
  if argv.length + 1 > 2 then .exited 1 (emit (.printf "Usage: tt [script name]\n") g)
  else
    let after := fun (g : Globals) => prompt_loop input (emit .fflush (emit (.printf "> ") g))
    match argv with
    | name :: _ =>
      match script name fn file g with
      | .returned _ g => after g
      | .looping s => .relaying s
      | .exited code g => .exited code g
      | .aborted g => .aborted g
    | [] => after g

/-! ## Observations on traces and results -/

/-- The bytes written to descriptor `fd`, in order. -/
def written_to (fd : Int) : List Eff → List Byte
  | [] => []
  | .write fd1 bs :: t => if fd1 = fd then bs ++ written_to fd t else written_to fd t
  | _ :: t => written_to fd t

/-- The loop state a half iteration hands on, when it hands one on. -/
def Phase.state : Phase → Option LState
  | .cont s => some s
  | .brk s => some s
  | .close0 s => some s
  | .exited _ _ => none

/-- The loop state when `do_connect` is still looping. -/
def Outcome.state : Outcome → Option LState
  | .looping s => some s
  | _ => none

/-- The globals at this point of `do_connect`. -/
def Outcome.globals : Outcome → Globals
  | .looping s => s.g
  | .returned _ g => g
  | .exited _ g => g
  | .aborted g => g

/-- The globals at the end of a half iteration. -/
def Phase.globals : Phase → Globals
  | .cont s => s.g
  | .brk s => s.g
  | .close0 s => s.g
  | .exited _ g => g

/-- The globals `setup_tty` or `restore_tty` leaves, at its return or at
`exit(1)`. -/
def tty_globals : Except Globals Globals → Globals
  | .ok g => g
  | .error g => g

/-- The byte the console half of an iteration consumed, if any. -/
def Ev.console_byte? (ev : Ev) : Option Byte :=
  if ev.stdin_ready = true then
    match ev.stdin_read with
    | .byte b => some b
    | _ => none
  else none

/-! ## The words of the specification -/

/-- The control actions of the specification (section 3). -/
inductive ControlAction where
  | ShowHelp
  | StartShell
  | ReturnToPrompt
  | SendBreak
  | Quit
  | Unknown
  deriving DecidableEq, Repr

/-- The table of the specification (section 4.3, rule 4), read off its words:
a case-insensitive match on the byte, `h`/`?` ShowHelp, `!` StartShell,
`c` ReturnToPrompt, `b` SendBreak, `q` Quit, anything else Unknown. -/
def spec_control_action (b : Byte) : ControlAction :=
  if b.val = 104 ∨ b.val = 72 ∨ b.val = 63 then .ShowHelp
  else if b.val = 33 then .StartShell
  else if b.val = 99 ∨ b.val = 67 then .ReturnToPrompt
  else if b.val = 98 ∨ b.val = 66 then .SendBreak
  else if b.val = 113 ∨ b.val = 81 then .Quit
  else .Unknown

/-- The connection states of the specification (section 3). -/
inductive ConnState where
  | NotSelected
  | Disconnected
  | Connected
  deriving DecidableEq, Repr

/-- The connection state of the specification, read off its words: no device
identifier set; identifier set and descriptor invalid; descriptor valid. -/
def spec_conn_state (g : Globals) : ConnState :=
  match g.term_name with
  | none => .NotSelected
  | some _ => if g.term_fd = -1 then .Disconnected else .Connected

/-- The device side of an iteration raises no error: either the device has
nothing to read, or the read delivers at least one byte and descriptor 1 takes
the whole chunk. -/
def Ev.device_ok (ev : Ev) : Prop :=
  ev.term_ready = true →
    ∃ data, ev.term_read = some data ∧ (data.take 1024).length ≠ 0 ∧
      ev.stdout_n = ((data.take 1024).length : Int)

/-- The console side of an iteration delivers, if anything, a byte that the
program does not take for the escape character. -/
def Ev.plain_key (ev : Ev) (g : Globals) : Prop :=
  ev.stdin_ready = true →
    ∃ b, ev.stdin_read = .byte b ∧ to_char g.char_signed b ≠ g.escape_char

/-! ## Invariants of the console modes -/

/-- Terminal calls on the console succeed, the snapshot held in
`stdin_termios` and `stdout_termios` is `(a0, a1)`, and the two agree when
descriptors 0 and 1 are one terminal. -/
def Snap (a0 a1 : Termios) (g : Globals) : Prop :=
  g.tty0_ok = true ∧ g.tty1_ok = true ∧ (g.same_tty = true → a0 = a1) ∧
    g.stdin_termios = a0 ∧ g.stdout_termios = a1

/-- Terminal calls on the console succeed and the console has the attributes
`(a0, a1)`, which agree when descriptors 0 and 1 are one terminal. -/
def AtRest (a0 a1 : Termios) (g : Globals) : Prop :=
  g.tty0_ok = true ∧ g.tty1_ok = true ∧ (g.same_tty = true → a0 = a1) ∧
    g.tty0 = a0 ∧ g.tty1 = a1

/-- The condition on the end of a half iteration: the snapshot is intact
where the loop goes on, the console is restored where the process exits. -/
def PhaseInv (a0 a1 : Termios) : Phase → Prop
  | .cont s => Snap a0 a1 s.g
  | .brk s => Snap a0 a1 s.g
  | .close0 s => Snap a0 a1 s.g
  | .exited _ g => AtRest a0 a1 g

/-- The condition on `do_connect` at any point: the snapshot is intact while
it loops, the console is restored when it has returned or exited, and the
process is aborted only where `FD_SET` is checked. -/
def OutcomeInv (a0 a1 : Termios) : Outcome → Prop
  | .looping s => Snap a0 a1 s.g
  | .returned _ g => AtRest a0 a1 g
  | .exited _ g => AtRest a0 a1 g
  | .aborted g => g.fd_set_checked = true

/-- One lowercase hexadecimal digit as a byte of text. -/
def hex_digit (d : Nat) : Byte :=
  if d < 10 then Fin.ofNat (48 + d) else Fin.ofNat (87 + d)

/-- The hex trace format of the specification (section 6), read off its
words: the literal text `[XX]`, `XX` two lowercase hexadecimal digits giving
the byte's value. -/
def spec_hex_item (b : Byte) : List Byte :=
  [91, hex_digit (b.val / 16), hex_digit (b.val % 16), 93]

/-! ## Sample inputs -/

/-- Attributes of a terminal in its usual line mode. -/
def cooked : Termios :=
  { c_iflag := 0o2400, c_oflag := 0o5, c_cflag := 0o277, c_lflag := 0o105073,
    c_cc := [3, 28, 127, 21, 4, 0, 1, 0] }

/-- The program connected to `/dev/ttyS0` on descriptor 3, no log open,
sitting at the command prompt of one terminal. -/
def g_connected : Globals :=
  { term_name := some "/dev/ttyS0", term_fd := 3, log_fd := -1,
    stdin_termios := cooked, stdout_termios := cooked,
    escape_char := 28, break_duration := 5, flag_nlcr := 0, flag_hex := 0,
    char_signed := true, fd_set_checked := true, tty0 := cooked, tty1 := cooked,
    same_tty := true,
    tty0_ok := true, tty1_ok := true, dev_attr := cooked, dev_tc_ok := true,
    env_TT_PORT := "/dev/ttyS0", trace := [] }

/-- One pass of the loop in which `select` times out. -/
def ev_idle : Ev :=
  { select_r := 0, stdin_ready := false, stdin_read := .eof, eagain := 0, write_n := 1,
    break_r := 0, open_r := -1, open_attr := cooked, term_ready := false,
    term_read := none, stdout_n := 0 }

/-- One pass of the loop in which the console delivers the byte `b`. -/
def ev_key (b : Byte) : Ev :=
  { ev_idle with select_r := 1, stdin_ready := true, stdin_read := .byte b }

/-- One pass of the loop in which the device delivers the chunk `data` and
descriptor 1 takes all of it. -/
def ev_chunk (data : List Byte) : Ev :=
  { ev_idle with
    select_r := 1, term_ready := true, term_read := some data, stdout_n := data.length }

/-- One pass of the loop in which the console is readable and its read
returns zero bytes. -/
def ev_console_eof : Ev :=
  { ev_idle with select_r := 1, stdin_ready := true, stdin_read := .eof }

/-- The program as `main` leaves it before the first command: no port, no
log, the defaults of the globals. -/
def g_start : Globals :=
  { g_connected with term_name := none, term_fd := -1, env_TT_PORT := "" }

/-- The same answers of the outside world with the console silent. -/
def Ev.silent (ev : Ev) : Ev :=
  { ev with stdin_ready := false }

/-- The program with `/dev/ttyS0` selected and the device lost: the state in
which the relay loop polls for the port. -/
def g_lost : Globals :=
  { g_connected with term_fd := -1 }

/-- One pass of the loop in which the console delivers the byte `b` and
`open` returns `fd`. -/
def ev_key_open (b : Byte) (fd : Int) : Ev :=
  { ev_key b with open_r := fd }

/-- Answers for a command that needs none: every call succeeds, the speed
functions leave the attributes alone. -/
def env_plain : CmdEnv :=
  { strtol_val := 0, strtol_rest := [], open_r := 3, open_attr := cooked, tiocmget_r := 0,
    modem_flags := 0, tiocmset_r := 0, system_r := 0, cfsetospeed := fun t _ => t,
    cfsetispeed := fun t _ => t, cfgetispeed := fun _ => 0o15, evs := [] }

/-- A session at the prompt: `set port /dev/ttyS0`, `set hex on`, then
`connect`, during which the device delivers the byte `ff`. -/
def hex_session : List Input :=
  [ .line { text := "set port /dev/ttyS0\n".data, env := env_plain },
    .line { text := "set hex on\n".data, env := env_plain },
    .line { text := "connect\n".data, env := { env_plain with evs := [ev_chunk [255]] } } ]

/-- One pass of the loop in which the device is readable and the read from it
fails. -/
def ev_dev_error : Ev :=
  { ev_idle with select_r := 1, term_ready := true, term_read := none }

/-- The program with `/dev/ttyS0` selected and the device lost, in a build
where `FD_SET` is the plain macro. -/
def g_polling : Globals :=
  { g_connected with term_fd := -1, fd_set_checked := false }

theorem emit_trace (e : Eff) (g : Globals) : (emit e g).trace = g.trace ++ [e] := rfl

/-- A pass that `FD_SET` does not abort is `relay_pass`. -/
theorem relay_iteration_pass (ev : Ev) (s : LState)
    (h : ¬ (s.g.fd_set_checked = true ∧ s.g.term_fd = -1)) :
    relay_iteration ev s = relay_pass ev s := by
  unfold relay_iteration
  simp only [h, if_false]

/-- With a device open the pass is `relay_pass`. -/
theorem relay_iteration_open (ev : Ev) (s : LState) (hfd : s.g.term_fd ≠ -1) :
    relay_iteration ev s = relay_pass ev s :=
  relay_iteration_pass ev s (fun h => hfd h.2)

/-- Where `FD_SET` is the plain macro the pass is `relay_pass`. -/
theorem relay_iteration_unchecked (ev : Ev) (s : LState) (hun : s.g.fd_set_checked = false) :
    relay_iteration ev s = relay_pass ev s :=
  relay_iteration_pass ev s (fun h => by simp [hun] at h)

/-- Where `FD_SET` is checked, a pass that starts with no device open ends in
`abort`. -/
theorem relay_iteration_aborts (ev : Ev) (s : LState) (hck : s.g.fd_set_checked = true)
    (hfd : s.g.term_fd = -1) :
    relay_iteration ev s = .aborted (emit (.stderr fd_set_msg) s.g) := by
  unfold relay_iteration
  simp [hck, hfd]

theorem written_to_append (fd : Int) (t u : List Eff) :
    written_to fd (t ++ u) = written_to fd t ++ written_to fd u := by
  induction t with
  | nil => simp [written_to]
  | cons e t ih =>
    cases e <;> simp [written_to, ih]
    split <;> simp

theorem tolower_to_char_letter (cs : Bool) (b : Byte) (t : Nat) (h1 : 97 ≤ t) (h2 : t ≤ 122) :
    tolower (to_char cs b) = (t : Int) ↔ (b.val = t ∨ b.val = t - 32) := by
  have hb := b.isLt
  unfold tolower to_char
  split_ifs <;> omega

theorem tolower_to_char_other (cs : Bool) (b : Byte) (t : Nat) (h1 : t < 65) :
    tolower (to_char cs b) = (t : Int) ↔ b.val = t := by
  have hb := b.isLt
  unfold tolower to_char
  split_ifs <;> omega

/-- The switch of `do_connect` picks its case as the table of the
specification does, whatever the signedness of `char`. -/
theorem control_switch_table (ev : Ev) (cs : Bool) (b : Byte) (s : LState) :
    control_switch ev (to_char cs b) s =
      match spec_control_action b with
      | .ShowHelp => case_help s
      | .StartShell => case_shell s
      | .ReturnToPrompt => case_c s
      | .SendBreak => case_b ev s
      | .Quit => case_q s
      | .Unknown => case_default s := by
  have h104 := tolower_to_char_letter cs b 104 (by decide) (by decide)
  have h99 := tolower_to_char_letter cs b 99 (by decide) (by decide)
  have h98 := tolower_to_char_letter cs b 98 (by decide) (by decide)
  have h113 := tolower_to_char_letter cs b 113 (by decide) (by decide)
  have h63 := tolower_to_char_other cs b 63 (by decide)
  have h33 := tolower_to_char_other cs b 33 (by decide)
  simp only [Nat.cast_ofNat] at h104 h99 h98 h113 h63 h33
  unfold control_switch spec_control_action
  simp only [h104, h99, h98, h113, h63, h33, or_assoc]
  split_ifs <;> rfl

/-! ## C1: dispatch of the byte after the escape character -/

theorem written_to_usleeps (fd : Int) (k : Nat) :
    written_to fd (List.replicate k Eff.usleep) = [] := by
  induction k with
  | zero => rfl
  | succ k ih => simpa [List.replicate_succ, written_to] using ih

theorem retry_write_ok (ev : Ev) (b : Byte) (k : Nat) (s : LState)
    (hfd : s.g.term_fd ≠ -1) (hw : 0 < ev.write_n) :
    retry_write ev b k s =
      .cont { s with g := { s.g with trace := s.g.trace ++
        (List.replicate k Eff.usleep ++ [Eff.write s.g.term_fd [b]]) } } := by
  induction k generalizing s with
  | zero =>
    have h1 : ¬ ev.write_n < 0 := by omega
    have h2 : ¬ ev.write_n = 0 := by omega
    simp [retry_write, hfd, h1, h2, emit]
  | succ k ih =>
    unfold retry_write
    simp only [hfd, ne_eq, not_false_eq_true, if_true]
    rw [ih _ (by simpa [emit] using hfd)]
    simp [emit, List.replicate_succ]

theorem hex_fold (cs : Bool) (buf : List Byte) (g : Globals) (hcs : g.char_signed = cs) :
    buf.foldl (fun g b => emit (.write 1 (hex_item g.char_signed b)) g) g =
      { g with trace := g.trace ++ buf.map (fun b => Eff.write 1 (hex_item cs b)) } := by
  induction buf generalizing g with
  | nil => simp
  | cons b buf ih =>
    simp only [List.foldl_cons, List.map_cons]
    rw [ih _ (by simpa [emit] using hcs)]
    simp [emit, hcs]

theorem hex_trace_eq (buf : List Byte) (g : Globals) :
    hex_trace buf g =
      { g with trace := g.trace ++
        (buf.map (fun b => Eff.write 1 (hex_item g.char_signed b)) ++ [Eff.write 1 [13, 10]]) } := by
  unfold hex_trace
  simp only [hex_fold g.char_signed buf g rfl]
  simp [emit]

theorem written_to_hex (fd : Int) (hfd : fd ≠ 1) (cs : Bool) (buf : List Byte) :
    written_to fd (buf.map (fun b => Eff.write 1 (hex_item cs b))) = [] := by
  induction buf with
  | nil => rfl
  | cons b buf ih => simp [written_to, ih, Ne.symm hfd]

theorem written_to_hex_take (fd : Int) (hfd : fd ≠ 1) (cs : Bool) (buf : List Byte) (n : Nat) :
    written_to fd (List.take n (buf.map (fun b => Eff.write 1 (hex_item cs b)))) = [] := by
  rw [← List.map_take]
  exact written_to_hex fd hfd cs _

/-- With the device connected and no error on its side, the device half of
an iteration only adds to the trace, and adds no write to any descriptor other
than 1 and the log. -/
theorem device_half_quiet (ev : Ev) (s : LState) (hfd : s.g.term_fd ≠ -1)
    (hok : ev.device_ok) :
    ∃ extra, device_half ev s =
        .cont { s with g := { s.g with trace := s.g.trace ++ extra } } ∧
      ∀ fd, fd ≠ 1 → fd ≠ s.g.log_fd → written_to fd extra = [] := by
  by_cases hready : ev.term_ready = true
  · obtain ⟨data, hread, hlen, hout⟩ := hok hready
    have hout2 : ¬ ev.stdout_n ≠ ((List.take 1024 data).length : Int) := by simp [hout]
    by_cases hlog : s.g.log_fd ≠ 0 <;> by_cases hhex : s.g.flag_hex ≠ 0
    · refine ⟨[Eff.write 1 (data.take 1024), Eff.write s.g.log_fd (data.take 1024)] ++
        ((data.take 1024).map (fun b => Eff.write 1 (hex_item s.g.char_signed b)) ++
          [Eff.write 1 [13, 10]]), ?_, ?_⟩
      · unfold device_half
        simp only [hfd, if_false, hready, if_true, hread, hlen, hout2]
        simp [emit, hlog, hhex, hex_trace_eq]
      · intro fd h1 h2
        simp [written_to, written_to_append, written_to_hex_take fd h1, Ne.symm h1, Ne.symm h2]
    · refine ⟨[Eff.write 1 (data.take 1024), Eff.write s.g.log_fd (data.take 1024)], ?_, ?_⟩
      · unfold device_half
        simp only [hfd, if_false, hready, if_true, hread, hlen, hout2]
        simp [emit, hlog, hhex]
      · intro fd h1 h2
        simp [written_to, Ne.symm h1, Ne.symm h2]
    · refine ⟨[Eff.write 1 (data.take 1024)] ++
        ((data.take 1024).map (fun b => Eff.write 1 (hex_item s.g.char_signed b)) ++
          [Eff.write 1 [13, 10]]), ?_, ?_⟩
      · unfold device_half
        simp only [hfd, if_false, hready, if_true, hread, hlen, hout2]
        simp [emit, hlog, hhex, hex_trace_eq]
      · intro fd h1 h2
        simp [written_to, written_to_append, written_to_hex_take fd h1, Ne.symm h1]
    · refine ⟨[Eff.write 1 (data.take 1024)], ?_, ?_⟩
      · unfold device_half
        simp only [hfd, if_false, hready, if_true, hread, hlen, hout2]
        simp [emit, hlog, hhex]
      · intro fd h1 h2
        simp [written_to, Ne.symm h1]
  · refine ⟨[], ?_, ?_⟩
    · unfold device_half
      simp [hfd, hready]
    · intro fd _ _
      rfl

/-- In the Idle escape state with the device connected and the write
succeeding, the console half of an iteration only adds to the trace, and what
it adds for the device is the byte it read, if it read one. -/
theorem console_half_forward (ev : Ev) (s : LState) (hidle : s.escape_seen = 0)
    (hfd : s.g.term_fd ≠ -1) (hw : 0 < ev.write_n) (hkey : ev.plain_key s.g) :
    ∃ extra, console_half ev s =
        .cont { s with g := { s.g with trace := s.g.trace ++ extra } } ∧
      written_to s.g.term_fd extra = ev.console_byte?.toList := by
  by_cases hready : ev.stdin_ready = true
  · obtain ⟨b, hread, hne⟩ := hkey hready
    refine ⟨List.replicate ev.eagain Eff.usleep ++ [Eff.write s.g.term_fd [b]], ?_, ?_⟩
    · have hnp : ¬ s.escape_seen ≠ 0 := by simp [hidle]
      unfold console_half console_byte
      simp only [hready, if_true, hread, hnp, if_false, hne]
      exact retry_write_ok ev b ev.eagain s hfd hw
    · simp [written_to_append, written_to_usleeps, written_to, Ev.console_byte?, hready, hread]
  · refine ⟨[], ?_, ?_⟩
    · unfold console_half
      simp [hready]
    · simp [written_to, Ev.console_byte?, hready]

/-- One whole iteration under the conditions of the two lemmas above. -/
theorem relay_iteration_forward (ev : Ev) (s : LState) (hidle : s.escape_seen = 0)
    (hfd : s.g.term_fd ≠ -1) (hfd1 : s.g.term_fd ≠ 1) (hlog : s.g.term_fd ≠ s.g.log_fd)
    (hsel : 0 ≤ ev.select_r) (hw : 0 < ev.write_n) (hkey : ev.plain_key s.g)
    (hok : ev.device_ok) :
    ∃ extra, relay_iteration ev s =
        .looping { s with g := { s.g with trace := s.g.trace ++ extra } } ∧
      written_to s.g.term_fd extra = ev.console_byte?.toList := by
  obtain ⟨x1, hc, hx1⟩ := console_half_forward ev s hidle hfd hw hkey
  obtain ⟨x2, hd, hx2⟩ := device_half_quiet ev
    { s with g := { s.g with trace := s.g.trace ++ x1 } } hfd hok
  refine ⟨x1 ++ x2, ?_, ?_⟩
  · have hsel2 : ¬ ev.select_r < 0 := not_lt.mpr hsel
    rw [relay_iteration_open ev s hfd]
    unfold relay_pass
    simp only [hsel2, if_false, hc, hd]
    simp
  · rw [written_to_append, hx1, hx2 _ hfd1 hlog]
    simp

/-- The loop over any number of such iterations. -/
theorem run_forward (evs : List Ev) (s : LState) (hidle : s.escape_seen = 0)
    (hfd : s.g.term_fd ≠ -1) (hfd1 : s.g.term_fd ≠ 1) (hlog : s.g.term_fd ≠ s.g.log_fd)
    (hev : ∀ ev ∈ evs, 0 ≤ ev.select_r ∧ 0 < ev.write_n ∧ ev.plain_key s.g ∧ ev.device_ok) :
    ∃ extra, run evs (.looping s) =
        .looping { s with g := { s.g with trace := s.g.trace ++ extra } } ∧
      written_to s.g.term_fd extra = evs.filterMap Ev.console_byte? := by
  induction evs generalizing s with
  | nil =>
    refine ⟨[], ?_, ?_⟩
    · simp [run]
    · rfl
  | cons ev evs ih =>
    obtain ⟨hsel, hw, hkey, hok⟩ := hev ev (List.mem_cons_self _ _)
    obtain ⟨x1, h1, hx1⟩ := relay_iteration_forward ev s hidle hfd hfd1 hlog hsel hw hkey hok
    obtain ⟨x2, h2, hx2⟩ := ih { s with g := { s.g with trace := s.g.trace ++ x1 } }
      hidle hfd hfd1 hlog (fun e he => hev e (List.mem_cons_of_mem _ he))
    refine ⟨x1 ++ x2, ?_, ?_⟩
    · simp only [run, h1, h2]
      simp
    · have hx2b : written_to s.g.term_fd x2 = evs.filterMap Ev.console_byte? := hx2
      rw [written_to_append, hx1, hx2b]
      cases h : ev.console_byte? <;> simp [List.filterMap_cons, h]

/-- C2: from the Idle escape state with the device connected, over any number
of loop iterations in which `select` succeeds, every write to the device
succeeds in the end, the device side raises no error and the console delivers
only bytes other than the escape character, the loop keeps running, nothing
but the trace changes (so the escape state stays Idle and the device stays
connected), and the bytes written to the device are exactly the console bytes,
unchanged and in order; this holds after every number `k` of iterations. -/
theorem C2_relay_forwards (evs : List Ev) (s : LState) (k : Nat)
    (hidle : s.escape_seen = 0) (hfd : s.g.term_fd ≠ -1) (hfd1 : s.g.term_fd ≠ 1)
    (hlog : s.g.term_fd ≠ s.g.log_fd)
    (hev : ∀ ev ∈ evs, 0 ≤ ev.select_r ∧ 0 < ev.write_n ∧ ev.plain_key s.g ∧ ev.device_ok) :
    ∃ s1, run (evs.take k) (.looping s) = .looping s1 ∧
      s1.escape_seen = 0 ∧ s1.g.term_fd = s.g.term_fd ∧
      written_to s.g.term_fd s1.g.trace =
        written_to s.g.term_fd s.g.trace ++ (evs.take k).filterMap Ev.console_byte? := by
  obtain ⟨extra, hrun, hx⟩ := run_forward (evs.take k) s hidle hfd hfd1 hlog
    (fun e he => hev e (List.mem_of_mem_take he))
  exact ⟨_, hrun, hidle, rfl, by simp [written_to_append, hx]⟩

/-- C2 at a concrete input: connected on descriptor 3, the keys `A`, `B`. -/
theorem C2_relay_forwards_witness :
    ∃ s1, run [ev_key 65, ev_key 66] (.looping { g := g_connected, escape_seen := 0 }) =
        .looping s1 ∧
      s1.escape_seen = 0 ∧ s1.g.term_fd = 3 ∧ written_to 3 s1.g.trace = [65, 66] :=
  C2_relay_forwards [ev_key 65, ev_key 66] { g := g_connected, escape_seen := 0 } 2
    rfl (by decide) (by decide) (by decide)
    (by
      intro ev hev
      simp only [List.mem_cons, List.mem_singleton, List.not_mem_nil, or_false] at hev
      rcases hev with h | h <;> subst h
      · exact ⟨by decide, by decide, fun _ => ⟨65, rfl, by decide⟩, fun h => by cases h⟩
      · exact ⟨by decide, by decide, fun _ => ⟨66, rfl, by decide⟩, fun h => by cases h⟩)

/-! ## Terminal modes when the terminal calls succeed -/

theorem restore_tty_ok (g : Globals) (h0 : g.tty0_ok = true) (h1 : g.tty1_ok = true) :
    restore_tty g =
      .ok { g with
        tty0 := if g.same_tty = true then g.stdout_termios else g.stdin_termios
        tty1 := g.stdout_termios } := by
  unfold restore_tty tcset0 tcset1
  by_cases hs : g.same_tty = true <;> simp [h0, h1, hs]

theorem setup_tty_ok (g : Globals) (h0 : g.tty0_ok = true) (h1 : g.tty1_ok = true) :
    setup_tty g =
      .ok { g with
        stdin_termios := g.tty0
        stdout_termios := g.tty1
        tty0 := raw_termios g.flag_nlcr g.tty0
        tty1 := raw_termios g.flag_nlcr g.tty0 } := by
  unfold setup_tty tcset0 tcset1
  by_cases hs : g.same_tty = true <;> simp [h0, h1, hs]

/-- A `break` with the device open: the terminal is restored, the device is
closed, the reconnect notice is printed, raw mode is entered again and the
loop starts over. -/
theorem do_close_reconnects (s : LState) (name : String)
    (h0 : s.g.tty0_ok = true) (h1 : s.g.tty1_ok = true)
    (hname : s.g.term_name = some name) (hfd : s.g.term_fd ≠ -1) :
    do_close 1 s = .looping { s with g := { s.g with
      term_fd := -1
      stdin_termios := if s.g.same_tty = true then s.g.stdout_termios else s.g.stdin_termios
      tty0 := raw_termios s.g.flag_nlcr
        (if s.g.same_tty = true then s.g.stdout_termios else s.g.stdin_termios)
      tty1 := raw_termios s.g.flag_nlcr
        (if s.g.same_tty = true then s.g.stdout_termios else s.g.stdin_termios)
      trace := s.g.trace ++ [Eff.close s.g.term_fd, Eff.stderr (reconnect_msg name)] } } := by
  unfold do_close
  rw [restore_tty_ok _ h0 h1]
  simp only [ne_eq, one_ne_zero, not_false_eq_true, hfd, and_self, if_true]
  unfold reconnect
  simp only [emit, hname, if_true]
  simp [setup_tty_ok, h0, h1]

/-- A `break` with no device open: the terminal is restored and `do_connect`
returns 1. -/
theorem do_close_returns (tc : Int) (s : LState)
    (h0 : s.g.tty0_ok = true) (h1 : s.g.tty1_ok = true) (hfd : s.g.term_fd = -1) :
    do_close tc s = .returned 1 { s.g with
      tty0 := if s.g.same_tty = true then s.g.stdout_termios else s.g.stdin_termios
      tty1 := s.g.stdout_termios
      trace := s.g.trace ++ [Eff.stderr "\nBack at command prompt\n"] } := by
  unfold do_close
  rw [restore_tty_ok _ h0 h1]
  simp [hfd, emit]

/-! ## C3, C4: the escape character typed twice -/

/-- The iteration that reads the escape character while an escape is pending,
the device being open and the write of that byte succeeding: after the write
the `break` of line 301 leaves the loop, so the device is closed and the
function starts over at `reconnect`. -/
theorem literal_escape_iteration (ev : Ev) (b : Byte) (s : LState) (name : String)
    (hpending : s.escape_seen ≠ 0)
    (hesc : to_char s.g.char_signed b = s.g.escape_char)
    (hfd : s.g.term_fd ≠ -1) (hw : 0 < first_write ev)
    (hsel : 0 ≤ ev.select_r) (hready : ev.stdin_ready = true) (hread : ev.stdin_read = .byte b)
    (h0 : s.g.tty0_ok = true) (h1 : s.g.tty1_ok = true)
    (hname : s.g.term_name = some name) :
    relay_iteration ev s = .looping { escape_seen := 0, g := { s.g with
      term_fd := -1
      stdin_termios := if s.g.same_tty = true then s.g.stdout_termios else s.g.stdin_termios
      tty0 := raw_termios s.g.flag_nlcr
        (if s.g.same_tty = true then s.g.stdout_termios else s.g.stdin_termios)
      tty1 := raw_termios s.g.flag_nlcr
        (if s.g.same_tty = true then s.g.stdout_termios else s.g.stdin_termios)
      trace := s.g.trace ++
        [Eff.write s.g.term_fd [b], Eff.close s.g.term_fd, Eff.stderr (reconnect_msg name)] } } := by
  have hsel2 : ¬ ev.select_r < 0 := not_lt.mpr hsel
  have hw1 : ¬ first_write ev < 0 := by omega
  have hw2 : ¬ first_write ev = 0 := by omega
  rw [relay_iteration_open ev s hfd]
  unfold relay_pass console_half console_byte literal_escape
  simp only [hsel2, if_false, hready, if_true, hread, hpending, ne_eq, not_false_eq_true, hesc,
    hfd, hw1, hw2]
  rw [do_close_reconnects _ name (by simpa [emit] using h0) (by simpa [emit] using h1)
    (by simpa [emit] using hname) (by simpa [emit] using hfd)]
  simp [emit]

/-- The escape character typed twice, seen from the Idle state, for a byte
that the program takes for the escape character: the first byte makes the
escape pending, the second is written to the device once, and the escape state
is Idle again (with the device closed, as in `literal_escape_iteration`). -/
theorem escape_twice_recognised (ev1 ev2 : Ev) (b : Byte) (s : LState) (name : String)
    (hidle : s.escape_seen = 0)
    (hesc : to_char s.g.char_signed b = s.g.escape_char)
    (hfd : s.g.term_fd ≠ -1) (hfd1 : s.g.term_fd ≠ 1) (hlog : s.g.term_fd ≠ s.g.log_fd)
    (hsel1 : 0 ≤ ev1.select_r) (hready1 : ev1.stdin_ready = true)
    (hread1 : ev1.stdin_read = .byte b) (hok1 : ev1.device_ok)
    (hsel2 : 0 ≤ ev2.select_r) (hready2 : ev2.stdin_ready = true)
    (hread2 : ev2.stdin_read = .byte b) (hw : 0 < first_write ev2)
    (h0 : s.g.tty0_ok = true) (h1 : s.g.tty1_ok = true)
    (hname : s.g.term_name = some name) :
    ∃ s1 s2, run [ev1] (.looping s) = .looping s1 ∧ s1.escape_seen = 1 ∧
      written_to s.g.term_fd s1.g.trace = written_to s.g.term_fd s.g.trace ∧
      run [ev1, ev2] (.looping s) = .looping s2 ∧ s2.escape_seen = 0 ∧
      written_to s.g.term_fd s2.g.trace = written_to s.g.term_fd s.g.trace ++ [b] := by
  obtain ⟨x, hd, hx⟩ := device_half_quiet ev1 { s with escape_seen := 1 } hfd hok1
  have hnp : ¬ s.escape_seen ≠ 0 := by simp [hidle]
  have hs1 : ¬ ev1.select_r < 0 := not_lt.mpr hsel1
  have hit1 : relay_iteration ev1 s =
      .looping { escape_seen := 1, g := { s.g with trace := s.g.trace ++ x } } := by
    rw [relay_iteration_open ev1 s hfd]
    unfold relay_pass console_half console_byte
    simp only [hs1, if_false, hready1, if_true, hread1, hnp, hesc, hd]
  obtain ⟨s2, hit2, he2, ht2⟩ : ∃ s2,
      relay_iteration ev2 { escape_seen := 1, g := { s.g with trace := s.g.trace ++ x } } =
        .looping s2 ∧ s2.escape_seen = 0 ∧
      s2.g.trace = (s.g.trace ++ x) ++
        [Eff.write s.g.term_fd [b], Eff.close s.g.term_fd, Eff.stderr (reconnect_msg name)] :=
    ⟨_, literal_escape_iteration ev2 b
      { escape_seen := 1, g := { s.g with trace := s.g.trace ++ x } } name (by simp) hesc hfd hw
      hsel2 hready2 hread2 h0 h1 hname, rfl, rfl⟩
  have hx0 : written_to s.g.term_fd x = [] := hx _ hfd1 hlog
  refine ⟨{ escape_seen := 1, g := { s.g with trace := s.g.trace ++ x } }, s2, ?_, rfl, ?_,
    ?_, he2, ?_⟩
  · simp only [run, hit1]
  · simp [written_to_append, hx0]
  · simp only [run, hit1, hit2]
  · rw [ht2]
    simp [written_to_append, hx0, written_to]

/-- C3 (failing input): where plain `char` is signed and the escape character
has been set to 200 (`set escape 200` is accepted), the console bytes 200, 200
are never taken for the escape character (`char c` holds -56 and
`c == escape_char` compares -56 with 200): no escape becomes pending and both
bytes are written to the device. -/
theorem C3_signed_char_escape_200 :
    do_set_escape "200" 200 [] g_connected = (1, { g_connected with escape_char := 200 }) ∧
    run [ev_key 200]
        (.looping { g := { g_connected with escape_char := 200 }, escape_seen := 0 }) =
      .looping { g := { g_connected with escape_char := 200, trace := [Eff.write 3 [200]] },
                 escape_seen := 0 } ∧
    run [ev_key 200, ev_key 200]
        (.looping { g := { g_connected with escape_char := 200 }, escape_seen := 0 }) =
      .looping { g := { g_connected with
                   escape_char := 200, trace := [Eff.write 3 [200], Eff.write 3 [200]] },
                 escape_seen := 0 } := by
  refine ⟨rfl, rfl, rfl⟩

/-- C4 (failing input, in general): when the escape character arrives while
an escape is pending, the device is open and the one-byte write to it succeeds,
the iteration does not leave the device open: the byte is written, then the
device descriptor is closed, `term_fd` becomes -1, and the loop starts over
with the notice that it is trying to reconnect. -/
theorem C4_literal_escape_closes_device (ev : Ev) (b : Byte) (s : LState) (name : String)
    (hpending : s.escape_seen ≠ 0)
    (hesc : to_char s.g.char_signed b = s.g.escape_char)
    (hfd : s.g.term_fd ≠ -1) (hw : 0 < first_write ev)
    (hsel : 0 ≤ ev.select_r) (hready : ev.stdin_ready = true) (hread : ev.stdin_read = .byte b)
    (h0 : s.g.tty0_ok = true) (h1 : s.g.tty1_ok = true)
    (hname : s.g.term_name = some name) :
    ∃ s1, relay_iteration ev s = .looping s1 ∧ s1.g.term_fd = -1 ∧
      s1.g.trace = s.g.trace ++
        [Eff.write s.g.term_fd [b], Eff.close s.g.term_fd, Eff.stderr (reconnect_msg name)] :=
  ⟨_, literal_escape_iteration ev b s name hpending hesc hfd hw hsel hready hread h0 h1 hname,
    rfl, rfl⟩

/-- C4 at a concrete input: connected on descriptor 3, escape pending, the
escape character 28 arrives and the write returns 1. -/
theorem C4_literal_escape_closes_device_witness :
    ∃ s1, relay_iteration (ev_key 28) { g := g_connected, escape_seen := 1 } = .looping s1 ∧
      s1.g.term_fd = -1 ∧
      s1.g.trace = [Eff.write 3 [28], Eff.close 3, Eff.stderr (reconnect_msg "/dev/ttyS0")] :=
  C4_literal_escape_closes_device (ev_key 28) 28 { g := g_connected, escape_seen := 1 }
    "/dev/ttyS0" (by decide) (by decide) (by decide) (by decide) (by decide) rfl rfl rfl rfl rfl

/-! ## C5: the console attributes on every way out -/

theorem case_help_inv (a0 a1 : Termios) (s : LState) (h : Snap a0 a1 s.g) :
    PhaseInv a0 a1 (case_help s) := by
  obtain ⟨h0, h1, ha, hs0, hs1⟩ := h
  unfold case_help
  rw [restore_tty_ok _ h0 h1]
  simp only [emit]
  simp only [setup_tty_ok, h0, h1, PhaseInv, Snap]
  by_cases hs : s.g.same_tty = true <;> simp_all

theorem case_shell_inv (a0 a1 : Termios) (s : LState) (h : Snap a0 a1 s.g) :
    PhaseInv a0 a1 (case_shell s) := by
  obtain ⟨h0, h1, ha, hs0, hs1⟩ := h
  unfold case_shell
  rw [restore_tty_ok _ h0 h1]
  simp only [emit]
  simp only [setup_tty_ok, h0, h1, PhaseInv, Snap]
  by_cases hs : s.g.same_tty = true <;> simp_all

theorem case_q_inv (a0 a1 : Termios) (s : LState) (h : Snap a0 a1 s.g) :
    PhaseInv a0 a1 (case_q s) := by
  obtain ⟨h0, h1, ha, hs0, hs1⟩ := h
  unfold case_q
  rw [restore_tty_ok _ h0 h1]
  simp only [PhaseInv, AtRest, do_quit, emit]
  by_cases hs : s.g.same_tty = true <;> split_ifs <;> simp_all

theorem case_b_inv (a0 a1 : Termios) (ev : Ev) (s : LState) (h : Snap a0 a1 s.g) :
    PhaseInv a0 a1 (case_b ev s) := by
  unfold case_b
  simp only [PhaseInv, Snap, emit] at *
  split_ifs <;> simpa using h

theorem snap_emit (a0 a1 : Termios) (e : Eff) (g : Globals) (h : Snap a0 a1 g) :
    Snap a0 a1 (emit e g) := by
  simpa [Snap, emit] using h

theorem control_switch_inv (a0 a1 : Termios) (ev : Ev) (c : Int) (s : LState)
    (h : Snap a0 a1 s.g) : PhaseInv a0 a1 (control_switch ev c s) := by
  unfold control_switch
  simp only []
  split_ifs
  · exact case_help_inv a0 a1 s h
  · exact case_shell_inv a0 a1 s h
  · exact h
  · exact case_b_inv a0 a1 ev s h
  · exact case_q_inv a0 a1 s h
  · exact snap_emit a0 a1 _ s.g h

theorem literal_escape_inv (a0 a1 : Termios) (ev : Ev) (b : Byte) (s : LState)
    (h : Snap a0 a1 s.g) : PhaseInv a0 a1 (literal_escape ev b s) := by
  unfold literal_escape
  simp only []
  split_ifs
  · exact snap_emit a0 a1 _ s.g h
  · exact snap_emit a0 a1 _ s.g h
  · exact snap_emit a0 a1 _ s.g h
  · exact h

theorem retry_write_inv (a0 a1 : Termios) (ev : Ev) (b : Byte) (k : Nat) (s : LState)
    (h : Snap a0 a1 s.g) : PhaseInv a0 a1 (retry_write ev b k s) := by
  induction k generalizing s with
  | zero =>
    unfold retry_write
    split_ifs
    · exact snap_emit a0 a1 _ s.g h
    · exact snap_emit a0 a1 _ s.g h
    · exact snap_emit a0 a1 _ s.g h
    · exact h
  | succ k ih =>
    unfold retry_write
    split_ifs
    · exact ih _ (snap_emit a0 a1 _ s.g h)
    · exact h

theorem console_half_inv (a0 a1 : Termios) (ev : Ev) (s : LState) (h : Snap a0 a1 s.g) :
    PhaseInv a0 a1 (console_half ev s) := by
  unfold console_half
  split_ifs
  · cases hr : ev.stdin_read with
    | err => exact snap_emit a0 a1 _ s.g h
    | eof => exact snap_emit a0 a1 _ s.g h
    | byte b =>
      simp only []
      unfold console_byte
      simp only []
      split_ifs
      · exact literal_escape_inv a0 a1 ev b _ h
      · exact control_switch_inv a0 a1 ev _ _ h
      · exact h
      · exact retry_write_inv a0 a1 ev b _ s h
  · exact h

theorem snap_hex_trace (a0 a1 : Termios) (buf : List Byte) (g : Globals) (h : Snap a0 a1 g) :
    Snap a0 a1 (hex_trace buf g) := by
  rw [hex_trace_eq]
  simpa [Snap] using h

theorem atrest_emit (a0 a1 : Termios) (e : Eff) (g : Globals) (h : AtRest a0 a1 g) :
    AtRest a0 a1 (emit e g) := by
  simpa [AtRest, emit] using h

theorem restore_tty_snap (a0 a1 : Termios) (g : Globals) (h : Snap a0 a1 g) :
    ∃ g1, restore_tty g = .ok g1 ∧ Snap a0 a1 g1 ∧ AtRest a0 a1 g1 := by
  obtain ⟨h0, h1, ha, hs0, hs1⟩ := h
  refine ⟨_, restore_tty_ok g h0 h1, ?_, ?_⟩
  · simp [Snap, h0, h1, hs0, hs1]
    exact ha
  · simp only [AtRest, h0, h1, hs0, hs1, true_and]
    by_cases hs : g.same_tty = true
    · have := ha hs
      simp [hs, this]
    · simp [hs]

theorem setup_tty_rest (a0 a1 : Termios) (g : Globals) (h : AtRest a0 a1 g) :
    ∃ g1, setup_tty g = .ok g1 ∧ Snap a0 a1 g1 := by
  obtain ⟨h0, h1, ha, hs0, hs1⟩ := h
  refine ⟨_, setup_tty_ok g h0 h1, ?_⟩
  simp [Snap, h0, h1, hs0, hs1]
  exact ha

theorem snap_setup_term (a0 a1 : Termios) (g : Globals) (h : Snap a0 a1 g) :
    Snap a0 a1 (setup_term g).2 := by
  unfold setup_term
  split_ifs
  · exact snap_emit a0 a1 _ g h
  · simpa [Snap] using h

theorem device_half_inv (a0 a1 : Termios) (ev : Ev) (s : LState) (h : Snap a0 a1 s.g) :
    PhaseInv a0 a1 (device_half ev s) := by
  unfold device_half
  split_ifs with hfd hready
  · cases hn : s.g.term_name with
    | none => exact h
    | some name =>
      simp only []
      split_ifs with hopen
      · generalize hX : (setup_term _).2 = gc
        have hsn : Snap a0 a1 gc := by
          rw [← hX]
          exact snap_setup_term a0 a1 _ (by simpa [Snap, emit] using h)
        obtain ⟨g1, hr, _, hre1⟩ := restore_tty_snap a0 a1 gc hsn
        rw [hr]
        simp only []
        obtain ⟨g2, hs2, hsn2⟩ := setup_tty_rest a0 a1
          (emit (Eff.stderr (connected_msg g1.escape_char)) g1) (atrest_emit a0 a1 _ g1 hre1)
        rw [hs2]
        exact hsn2
      · simpa [PhaseInv, Snap, emit] using h
  · cases hr : ev.term_read with
    | none => exact snap_emit a0 a1 _ s.g h
    | some data =>
      simp only []
      split_ifs
      · exact snap_emit a0 a1 _ s.g h
      · exact snap_emit a0 a1 _ _ (snap_emit a0 a1 _ s.g h)
      · exact snap_hex_trace a0 a1 _ _ (snap_emit a0 a1 _ _ (snap_emit a0 a1 _ s.g h))
      · exact snap_emit a0 a1 _ _ (snap_emit a0 a1 _ s.g h)
      · exact snap_hex_trace a0 a1 _ _ (snap_emit a0 a1 _ s.g h)
      · exact snap_emit a0 a1 _ s.g h
  · exact h

theorem reconnect_inv (a0 a1 : Termios) (s : LState) (h : AtRest a0 a1 s.g) :
    OutcomeInv a0 a1 (reconnect s) := by
  unfold reconnect
  cases hn : s.g.term_name with
  | none => exact atrest_emit a0 a1 _ s.g h
  | some name =>
    simp only []
    obtain ⟨g2, hs2, hsn2⟩ := setup_tty_rest a0 a1
      (if s.g.term_fd = -1 then emit (Eff.stderr (reconnect_msg name)) s.g
        else emit (Eff.stderr (connected_msg s.g.escape_char)) s.g)
      (by split_ifs <;> exact atrest_emit a0 a1 _ s.g h)
    rw [hs2]
    exact hsn2

theorem do_close_inv (a0 a1 : Termios) (tc : Int) (s : LState) (h : Snap a0 a1 s.g) :
    OutcomeInv a0 a1 (do_close tc s) := by
  unfold do_close
  obtain ⟨g1, hr, _, hre1⟩ := restore_tty_snap a0 a1 s.g h
  rw [hr]
  simp only []
  split_ifs
  · exact reconnect_inv a0 a1 _ (by simpa [AtRest, emit] using hre1)
  · exact atrest_emit a0 a1 _ g1 hre1

theorem relay_pass_inv (a0 a1 : Termios) (ev : Ev) (s : LState) (h : Snap a0 a1 s.g) :
    OutcomeInv a0 a1 (relay_pass ev s) := by
  unfold relay_pass
  split_ifs
  · exact do_close_inv a0 a1 1 _ (snap_emit a0 a1 _ s.g h)
  · have hc := console_half_inv a0 a1 ev s h
    cases hcp : console_half ev s with
    | exited code g => rw [hcp] at hc; exact hc
    | brk s1 => rw [hcp] at hc; exact do_close_inv a0 a1 1 s1 hc
    | close0 s1 => rw [hcp] at hc; exact do_close_inv a0 a1 0 s1 hc
    | cont s1 =>
      rw [hcp] at hc
      have hd := device_half_inv a0 a1 ev s1 hc
      simp only []
      cases hdp : device_half ev s1 with
      | exited code g => rw [hdp] at hd; exact hd
      | brk s2 => rw [hdp] at hd; exact do_close_inv a0 a1 1 s2 hd
      | close0 s2 => rw [hdp] at hd; exact do_close_inv a0 a1 0 s2 hd
      | cont s2 => rw [hdp] at hd; exact hd

theorem relay_iteration_inv (a0 a1 : Termios) (ev : Ev) (s : LState) (h : Snap a0 a1 s.g) :
    OutcomeInv a0 a1 (relay_iteration ev s) := by
  unfold relay_iteration
  split_ifs with hab
  · exact hab.1
  · exact relay_pass_inv a0 a1 ev s h

theorem run_inv (a0 a1 : Termios) (evs : List Ev) (o : Outcome) (h : OutcomeInv a0 a1 o) :
    OutcomeInv a0 a1 (run evs o) := by
  induction evs generalizing o with
  | nil => simpa [run] using h
  | cons ev evs ih =>
    cases o with
    | looping s => exact ih _ (relay_iteration_inv a0 a1 ev s h)
    | returned r g => simpa [run] using h
    | exited code g => simpa [run] using h
    | aborted g => simpa [run] using h

/-- Provided the terminal calls on descriptors 0 and 1 succeed (and the two
descriptors have the same attributes when they are one terminal), after any
number of iterations of `do_connect`, however they went: if the function has
returned or the process has called `exit`, the attributes of console-in and
console-out are those at entry; while the loop is still running, the snapshot
`restore_tty` will apply is the attributes at entry; and the process has been
aborted only where `FD_SET` is checked. -/
theorem console_restored_unless_aborted (evs : List Ev) (g : Globals)
    (h0 : g.tty0_ok = true) (h1 : g.tty1_ok = true)
    (halias : g.same_tty = true → g.tty0 = g.tty1) :
    (∀ r g1, do_connect evs g = .returned r g1 → g1.tty0 = g.tty0 ∧ g1.tty1 = g.tty1) ∧
    (∀ code g1, do_connect evs g = .exited code g1 → g1.tty0 = g.tty0 ∧ g1.tty1 = g.tty1) ∧
    (∀ s, do_connect evs g = .looping s →
      s.g.stdin_termios = g.tty0 ∧ s.g.stdout_termios = g.tty1) ∧
    (∀ g1, do_connect evs g = .aborted g1 → g1.fd_set_checked = true) := by
  have hinv : OutcomeInv g.tty0 g.tty1 (do_connect evs g) :=
    run_inv _ _ evs _ (reconnect_inv _ _ _ ⟨h0, h1, halias, rfl, rfl⟩)
  refine ⟨?_, ?_, ?_, ?_⟩
  · intro r g1 hr
    rw [hr] at hinv
    exact ⟨hinv.2.2.2.1, hinv.2.2.2.2⟩
  · intro code g1 hr
    rw [hr] at hinv
    exact ⟨hinv.2.2.2.1, hinv.2.2.2.2⟩
  · intro s hr
    rw [hr] at hinv
    exact ⟨hinv.2.2.2.1, hinv.2.2.2.2⟩
  · intro g1 hr
    rw [hr] at hinv
    exact hinv

/-- C5 (failing input): where `FD_SET` is checked, `do_connect` entered on a
connected device with the console in line mode; the console read returns end
of input in the first pass, so the terminal is restored, the device is closed
and the loop starts over in raw mode.  The second pass aborts the process in
`FD_SET(-1, &readfds)`: the process has ended with console-in and console-out
in raw mode, not with the attributes they had at entry.  Where `FD_SET` is not
checked the same run returns 1 with the console as it was. -/
theorem C5_abort_leaves_console_raw :
    (∃ g1, do_connect [ev_console_eof, ev_console_eof] g_connected = .aborted g1 ∧
      g1.tty0 = raw_termios 0 cooked ∧ g1.tty1 = raw_termios 0 cooked ∧
      g1.tty0 ≠ g_connected.tty0 ∧ g1.tty1 ≠ g_connected.tty1 ∧
      g1.stdin_termios = g_connected.tty0 ∧ g1.stdout_termios = g_connected.tty1 ∧
      g1.trace = [Eff.stderr (connected_msg 28), Eff.stderr "read stdin: EOF\n",
        Eff.close 3, Eff.stderr (reconnect_msg "/dev/ttyS0"), Eff.stderr fd_set_msg]) ∧
    ∃ g2, do_connect [ev_console_eof, ev_console_eof]
        { g_connected with fd_set_checked := false } = .returned 1 g2 ∧
      g2.tty0 = g_connected.tty0 ∧ g2.tty1 = g_connected.tty1 := by
  refine ⟨⟨_, rfl, rfl, rfl, by decide, by decide, rfl, rfl, rfl⟩, _, rfl, rfl, rfl⟩

/-! ## C6: the hex trace -/

set_option maxRecDepth 100000 in
/-- The block `if (flag_hex)` of `do_connect`, which no run of the program
enters (`flag_hex` is never assigned): it writes to descriptor 1 four bytes
per byte of the chunk and one CR LF; the four bytes are `[XX]` for byte values
up to 127 or where plain `char` is unsigned, and `[fff` for a byte above 127
where `char` is signed, the byte reaching `sprintf` as a negative `int`. -/
theorem hex_item_table :
    (∀ b : Byte, hex_item false b = spec_hex_item b) ∧
    (∀ b : Byte, hex_item true b =
      if b.val < 128 then spec_hex_item b else [91, 102, 102, 102]) ∧
    (∀ (buf : List Byte) (g : Globals), hex_trace buf g = { g with trace := g.trace ++
      (buf.map (fun b => Eff.write 1 (hex_item g.char_signed b)) ++ [Eff.write 1 [13, 10]]) }) := by
  refine ⟨by decide, by decide, hex_trace_eq⟩

theorem console_byte_pending (ev : Ev) (b : Byte) (s : LState) (hpending : s.escape_seen ≠ 0)
    (hne : to_char s.g.char_signed b ≠ s.g.escape_char) :
    console_byte ev b s =
      control_switch ev (to_char s.g.char_signed b) { s with escape_seen := 0 } := by
  unfold console_byte
  simp [hpending, hne]

theorem console_byte_idle (ev : Ev) (b : Byte) (s : LState) (hidle : s.escape_seen = 0)
    (hne : to_char s.g.char_signed b ≠ s.g.escape_char) :
    console_byte ev b s = retry_write ev b ev.eagain s := by
  unfold console_byte
  simp [hidle, hne]

theorem case_help_ok (s : LState) (h0 : s.g.tty0_ok = true) (h1 : s.g.tty1_ok = true) :
    ∃ g1, case_help s = .cont { g := g1, escape_seen := 1 } ∧
      g1.trace = s.g.trace ++ [Eff.printf (help_msg s.g.escape_char), Eff.fflush] ∧
      g1.char_signed = s.g.char_signed ∧ g1.escape_char = s.g.escape_char ∧
      g1.term_fd = s.g.term_fd := by
  unfold case_help
  rw [restore_tty_ok _ h0 h1]
  simp only [emit]
  simp only [setup_tty_ok, h0, h1]
  exact ⟨_, rfl, by simp, rfl, rfl, rfl⟩

theorem case_shell_ok (s : LState) (h0 : s.g.tty0_ok = true) (h1 : s.g.tty1_ok = true) :
    ∃ g1, case_shell s = .cont { g := g1, escape_seen := s.escape_seen } ∧
      g1.trace = s.g.trace ++ [Eff.printf "\nStarting a shell\n", Eff.shell,
        Eff.printf "\nBack at the terminal\n"] ∧
      g1.char_signed = s.g.char_signed ∧ g1.escape_char = s.g.escape_char ∧
      g1.term_fd = s.g.term_fd := by
  unfold case_shell
  rw [restore_tty_ok _ h0 h1]
  simp only [emit]
  simp only [setup_tty_ok, h0, h1]
  exact ⟨_, rfl, by simp, rfl, rfl, rfl⟩

/-- C7 (the claim fails for StartShell): from the loop entered on a connected
device, the operator types the escape character, `!`, then `A`.  After the
shell the escape state is Idle, not Pending, and `A` is forwarded to the
device. -/
theorem C7_shell_returns_to_relay :
    (do_connect [ev_key 28, ev_key 33] g_connected).state.map (fun s => s.escape_seen) =
      some 0 ∧
    written_to 3 (do_connect [ev_key 28, ev_key 33, ev_key 65] g_connected).globals.trace =
      [65] := by
  constructor <;> rfl

/-- C7 (amended): with the terminal calls succeeding, a pending escape
followed by `h`, `H` or `?` prints the help text and leaves the escape state
Pending (`escape_seen = 1`), so the next console byte other than the escape
character goes to the switch of control characters and not to the device; a
pending escape followed by `!` runs the shell, prints "Back at the terminal"
and leaves the escape state Idle (`escape_seen = 0`), so the next console byte
other than the escape character is relayed to the device. -/
theorem C7_help_pending_shell_idle (ev : Ev) (b : Byte) (s : LState)
    (hpending : s.escape_seen ≠ 0)
    (hne : to_char s.g.char_signed b ≠ s.g.escape_char)
    (h0 : s.g.tty0_ok = true) (h1 : s.g.tty1_ok = true) :
    (spec_control_action b = .ShowHelp →
      ∃ s1, console_byte ev b s = .cont s1 ∧ s1.escape_seen = 1 ∧
        s1.g.trace = s.g.trace ++ [Eff.printf (help_msg s.g.escape_char), Eff.fflush] ∧
        ∀ (ev2 : Ev) (b2 : Byte), to_char s1.g.char_signed b2 ≠ s1.g.escape_char →
          console_byte ev2 b2 s1 =
            control_switch ev2 (to_char s1.g.char_signed b2) { s1 with escape_seen := 0 }) ∧
    (spec_control_action b = .StartShell →
      ∃ s1, console_byte ev b s = .cont s1 ∧ s1.escape_seen = 0 ∧
        s1.g.trace = s.g.trace ++ [Eff.printf "\nStarting a shell\n", Eff.shell,
          Eff.printf "\nBack at the terminal\n"] ∧
        ∀ (ev2 : Ev) (b2 : Byte), to_char s1.g.char_signed b2 ≠ s1.g.escape_char →
          console_byte ev2 b2 s1 = retry_write ev2 b2 ev2.eagain s1) := by
  have hcb := console_byte_pending ev b s hpending hne
  rw [control_switch_table] at hcb
  constructor
  · intro ha
    rw [ha] at hcb
    obtain ⟨g1, hg, ht, _, _, _⟩ := case_help_ok { s with escape_seen := 0 } h0 h1
    refine ⟨{ g := g1, escape_seen := 1 }, hcb.trans hg, rfl, ht, ?_⟩
    intro ev2 b2 hne2
    exact console_byte_pending ev2 b2 _ (by simp) hne2
  · intro ha
    rw [ha] at hcb
    obtain ⟨g1, hg, ht, _, _, _⟩ := case_shell_ok { s with escape_seen := 0 } h0 h1
    refine ⟨{ g := g1, escape_seen := 0 }, hcb.trans hg, rfl, ht, ?_⟩
    intro ev2 b2 hne2
    exact console_byte_idle ev2 b2 _ rfl hne2

/-- C7 (amended) at a concrete input: escape pending on a connected device,
the byte `!` arrives. -/
theorem C7_help_pending_shell_idle_witness :
    ∃ s1, console_byte (ev_key 33) 33 { g := g_connected, escape_seen := 1 } = .cont s1 ∧
      s1.escape_seen = 0 ∧
      s1.g.trace = [Eff.printf "\nStarting a shell\n", Eff.shell,
          Eff.printf "\nBack at the terminal\n"] ∧
      ∀ (ev2 : Ev) (b2 : Byte), to_char s1.g.char_signed b2 ≠ s1.g.escape_char →
        console_byte ev2 b2 s1 = retry_write ev2 b2 ev2.eagain s1 :=
  (C7_help_pending_shell_idle (ev_key 33) 33 { g := g_connected, escape_seen := 1 }
    (by decide) (by decide) rfl rfl).2 (by decide)

/-! ## C8: the device is lost -/

/-- An iteration with the device closed, the console silent and `open`
failing, where `FD_SET` is not checked: the port is opened once more, in vain,
and nothing else happens. -/
theorem relay_iteration_open_fails (ev : Ev) (s : LState) (name : String)
    (hun : s.g.fd_set_checked = false)
    (hsel : 0 ≤ ev.select_r) (hsilent : ev.stdin_ready = false) (hopen : ev.open_r = -1)
    (hfd : s.g.term_fd = -1) (hname : s.g.term_name = some name) :
    relay_iteration ev s =
      .looping { s with g := { s.g with trace := s.g.trace ++ [Eff.open_port name] } } := by
  have hsel2 : ¬ ev.select_r < 0 := not_lt.mpr hsel
  rw [relay_iteration_unchecked ev s hun]
  unfold relay_pass console_half device_half
  simp [hsel2, hsilent, hfd, hname, hopen, emit]

theorem run_open_fails (evs : List Ev) (s : LState) (name : String)
    (hun : s.g.fd_set_checked = false)
    (hev : ∀ ev ∈ evs, 0 ≤ ev.select_r ∧ ev.stdin_ready = false ∧ ev.open_r = -1)
    (hfd : s.g.term_fd = -1) (hname : s.g.term_name = some name) :
    run evs (.looping s) =
      .looping { s with g := { s.g with
        trace := s.g.trace ++ List.replicate evs.length (Eff.open_port name) } } := by
  induction evs generalizing s with
  | nil => simp [run]
  | cons ev evs ih =>
    obtain ⟨hsel, hsilent, hopen⟩ := hev ev (List.mem_cons_self _ _)
    simp only [run]
    rw [relay_iteration_open_fails ev s name hun hsel hsilent hopen hfd hname,
      ih { s with g := { s.g with trace := s.g.trace ++ [Eff.open_port name] } } hun
        (fun e he => hev e (List.mem_cons_of_mem _ he)) hfd hname]
    simp [List.replicate_succ]

/-- A read from the connected device that fails or returns zero bytes:
`do_connect` neither returns nor exits in that pass, which ends with the
device descriptor closed, `term_fd = -1`, the port name kept, the notice
`Trying to reconnect to "<port>"` on `stderr` and the console back in raw
mode.  Where `FD_SET` is not checked, every following pass (taken here with a
silent console and `open` failing) calls `open` on the port again. -/
theorem device_eof_reconnects (ev : Ev) (s s1 : LState) (name : String)
    (hpass : s.g.term_fd ≠ -1)
    (hsel : 0 ≤ ev.select_r) (hcons : console_half ev s = .cont s1)
    (hfd : s1.g.term_fd ≠ -1) (hname : s1.g.term_name = some name)
    (h0 : s1.g.tty0_ok = true) (h1 : s1.g.tty1_ok = true)
    (hready : ev.term_ready = true)
    (hread : ev.term_read = none ∨ ∃ data, ev.term_read = some data ∧ data.take 1024 = []) :
    ∃ s2, relay_iteration ev s = .looping s2 ∧
      s2.escape_seen = s1.escape_seen ∧ s2.g.term_fd = -1 ∧ s2.g.term_name = some name ∧
      s2.g.trace = s1.g.trace ++
        [if ev.term_read = none then Eff.perror "read term_fd"
          else Eff.stderr "read term_fd: EOF\n",
         Eff.close s1.g.term_fd, Eff.stderr (reconnect_msg name)] ∧
      s2.g.tty0 = raw_termios s2.g.flag_nlcr s2.g.stdin_termios ∧
      s2.g.tty1 = raw_termios s2.g.flag_nlcr s2.g.stdin_termios ∧
      (s1.g.fd_set_checked = true → ∀ ev2 : Ev,
        relay_iteration ev2 s2 = .aborted (emit (.stderr fd_set_msg) s2.g)) ∧
      (s1.g.fd_set_checked = false → ∀ evs : List Ev,
        (∀ e ∈ evs, 0 ≤ e.select_r ∧ e.stdin_ready = false ∧ e.open_r = -1) →
        run evs (.looping s2) = .looping { s2 with g := { s2.g with
          trace := s2.g.trace ++ List.replicate evs.length (Eff.open_port name) } }) := by
  have hsel2 : ¬ ev.select_r < 0 := not_lt.mpr hsel
  have hbrk : ∃ e, device_half ev s1 = .brk { s1 with g := emit e s1.g } ∧
      e = if ev.term_read = none then Eff.perror "read term_fd"
        else Eff.stderr "read term_fd: EOF\n" := by
    rcases hread with hn | ⟨data, hd, hempty⟩
    · refine ⟨_, ?_, rfl⟩
      unfold device_half
      simp [hfd, hready, hn]
    · refine ⟨_, ?_, rfl⟩
      unfold device_half
      simp [hfd, hready, hd, hempty]
  obtain ⟨e, hdev, he⟩ := hbrk
  have hit : relay_iteration ev s = do_close 1 { s1 with g := emit e s1.g } := by
    rw [relay_iteration_open ev s hpass]
    unfold relay_pass
    simp only [hsel2, if_false, hcons, hdev]
  rw [hit, do_close_reconnects _ name (by simpa [emit] using h0) (by simpa [emit] using h1)
    (by simpa [emit] using hname) (by simpa [emit] using hfd)]
  refine ⟨_, rfl, rfl, rfl, hname, ?_, rfl, rfl, ?_, ?_⟩
  · simp [emit, he]
  · intro hck ev2
    exact relay_iteration_aborts ev2 _ hck rfl
  · intro hun evs hev
    exact run_open_fails evs _ name hun hev rfl hname

/-- C8 (failing input): where `FD_SET` is checked, `do_connect` entered on a
connected device and the read from the device returns zero bytes.  That pass
ends as the claim says, looping with the device closed and the reconnect
notice printed; but the next pass does not try to open the port: it aborts the
process in `FD_SET(-1, &readfds)`, and `open` has not been called. -/
theorem C8_abort_after_device_eof :
    (do_connect [ev_chunk []] g_connected).state.map (fun s => s.g.term_fd) = some (-1) ∧
    ∃ g1, do_connect [ev_chunk [], ev_idle] g_connected = .aborted g1 ∧
      g1.trace = [Eff.stderr (connected_msg 28), Eff.stderr "read term_fd: EOF\n",
        Eff.close 3, Eff.stderr (reconnect_msg "/dev/ttyS0"), Eff.stderr fd_set_msg] ∧
      ∀ evs, do_connect ([ev_chunk [], ev_idle] ++ evs) g_connected = .aborted g1 := by
  refine ⟨rfl, _, rfl, rfl, ?_⟩
  intro evs
  cases evs <;> rfl

/-! ## C9: the console read fails -/

/-- C9 (the claim fails while connected): `do_connect` entered on a
connected device, the first console read returns end of input.  The function
has not returned: it closed the device, printed the reconnect notice and is
in the loop again. -/
theorem C9_console_eof_while_connected :
    (do_connect [ev_console_eof] g_connected).state.map (fun s => s.g.term_fd) = some (-1) ∧
    (do_connect [ev_console_eof] g_connected).globals.trace =
      [Eff.stderr (connected_msg 28), Eff.stderr "read stdin: EOF\n", Eff.close 3,
       Eff.stderr (reconnect_msg "/dev/ttyS0")] := by
  constructor <;> rfl

/-- C9 (amended): a pass of the relay loop that reaches the one-byte read of
the console (`select` has not failed and, where `FD_SET` is checked, a device
is open), the read failing or returning end of input.  An error is reported
and `restore_tty` runs.  If the terminal calls fail on descriptor 0 or 1 the
process exits with status 1.  If they succeed the terminal is restored, and:
with no device open `do_connect` returns 1 at once; with a device open (its
name in `term_name`) `do_connect` does not return: the device is closed,
`term_fd` is -1, the reconnect notice is printed, raw mode is entered again and
the loop is at the top of another pass. -/
theorem C9_console_failure (ev : Ev) (s : LState)
    (hpass : ¬ (s.g.fd_set_checked = true ∧ s.g.term_fd = -1))
    (hsel : 0 ≤ ev.select_r) (hready : ev.stdin_ready = true)
    (hread : ev.stdin_read = .err ∨ ev.stdin_read = .eof) :
    ((s.g.tty0_ok = false ∨ s.g.tty1_ok = false) →
      ∃ g1, relay_iteration ev s = .exited 1 g1 ∧
        g1.trace = s.g.trace ++
          [if ev.stdin_read = .err then Eff.perror "read stdin"
            else Eff.stderr "read stdin: EOF\n",
           Eff.perror "tcsetattr stdin"]) ∧
    (s.g.tty0_ok = true → s.g.tty1_ok = true →
      (s.g.term_fd = -1 →
        relay_iteration ev s = .returned 1 { s.g with
          tty0 := if s.g.same_tty = true then s.g.stdout_termios else s.g.stdin_termios
          tty1 := s.g.stdout_termios
          trace := s.g.trace ++
            [if ev.stdin_read = .err then Eff.perror "read stdin"
              else Eff.stderr "read stdin: EOF\n",
             Eff.stderr "\nBack at command prompt\n"] }) ∧
      (∀ name, s.g.term_fd ≠ -1 → s.g.term_name = some name →
        ∃ s2, relay_iteration ev s = .looping s2 ∧ s2.g.term_fd = -1 ∧
          s2.g.term_name = some name ∧
          s2.g.trace = s.g.trace ++
            [if ev.stdin_read = .err then Eff.perror "read stdin"
              else Eff.stderr "read stdin: EOF\n",
             Eff.close s.g.term_fd, Eff.stderr (reconnect_msg name)] ∧
          s2.g.stdout_termios = s.g.stdout_termios ∧
          s2.g.stdin_termios =
            (if s.g.same_tty = true then s.g.stdout_termios else s.g.stdin_termios) ∧
          s2.g.tty0 = raw_termios s2.g.flag_nlcr s2.g.stdin_termios ∧
          s2.g.tty1 = raw_termios s2.g.flag_nlcr s2.g.stdin_termios)) := by
  have hs2 : ¬ ev.select_r < 0 := not_lt.mpr hsel
  have hbrk : relay_iteration ev s = do_close 1 { s with g := (emit
      (if ev.stdin_read = .err then Eff.perror "read stdin"
        else Eff.stderr "read stdin: EOF\n") s.g) } := by
    rw [relay_iteration_pass ev s hpass]
    unfold relay_pass console_half
    rcases hread with h | h <;> simp [hs2, hready, h]
  refine ⟨?_, ?_⟩
  · intro hbad
    rw [hbrk]
    unfold do_close restore_tty
    by_cases h0 : s.g.tty0_ok = true
    · have h1 : s.g.tty1_ok = false := by
        rcases hbad with h | h
        · rw [h0] at h
          exact absurd h (by decide)
        · exact h
      by_cases hs : s.g.same_tty = true <;> simp [emit, tcset0, h0, h1, hs]
    · have h0f : s.g.tty0_ok = false := by simpa using h0
      simp [emit, h0f]
  · intro h0 h1
    constructor
    · intro hfd
      rw [hbrk, do_close_returns 1 _ (by simpa [emit] using h0) (by simpa [emit] using h1)
          (by simpa [emit] using hfd)]
      simp [emit]
    · intro name hfd hname
      rw [hbrk, do_close_reconnects _ name (by simpa [emit] using h0) (by simpa [emit] using h1)
          (by simpa [emit] using hname) (by simpa [emit] using hfd)]
      exact ⟨_, rfl, rfl, hname, by simp [emit], rfl, rfl, rfl, rfl⟩

/-- C9 (amended) at a concrete input: the loop running with no device open,
`FD_SET` not checked, the console read returns end of input. -/
theorem C9_console_failure_witness :
    relay_iteration ev_console_eof { g := g_polling, escape_seen := 0 } =
      .returned 1 { g_polling with
        trace := [Eff.stderr "read stdin: EOF\n", Eff.stderr "\nBack at command prompt\n"] } :=
  ((((C9_console_failure ev_console_eof { g := g_polling, escape_seen := 0 }
    (by decide) (by decide) rfl (Or.inr rfl)).2 rfl rfl).1 rfl).trans rfl)

/-! ## C10: `set port` with a port that cannot be opened -/

/-- C10 (the claim fails): `set port /dev/ttyUSB0` at program start with
`open` failing leaves no port name behind: `term_name` is NULL, `TT_PORT` is
empty, the state is NotSelected, and `connect` answers "No port selected". -/
theorem C10_failed_open_forgets_port :
    (do_set_port "/dev/ttyUSB0" (-1) cooked g_start).2.term_name = none ∧
    (do_set_port "/dev/ttyUSB0" (-1) cooked g_start).2.env_TT_PORT = "" ∧
    spec_conn_state (do_set_port "/dev/ttyUSB0" (-1) cooked g_start).2 = .NotSelected ∧
    (do_connect [ev_idle] (do_set_port "/dev/ttyUSB0" (-1) cooked g_start).2).globals.trace =
      [Eff.open_port "/dev/ttyUSB0", Eff.stderr "failed to open /dev/ttyUSB0: %s\n",
       Eff.stderr "No port selected\n"] := by
  refine ⟨rfl, rfl, rfl, rfl⟩

/-- C10 (amended): for every non-empty path not starting with `?`, when the
non-blocking open fails `do_set_port` returns 0 with no device identifier
recorded (`term_name` is NULL, `TT_PORT` is empty) and `term_fd = -1`, which
is the state NotSelected, and a later `connect` prints "No port selected" and
returns 0 without opening anything; the identifier is recorded, in
`term_name` and `TT_PORT`, when the open succeeds. -/
theorem C10_set_port_records_on_success (args : String) (open_r : Int) (attr : Termios)
    (g : Globals) (hne : args.data.head? ≠ none) (hq : args.data.head? ≠ some '?') :
    (open_r = -1 →
      (do_set_port args open_r attr g).1 = 0 ∧
      (do_set_port args open_r attr g).2.term_name = none ∧
      (do_set_port args open_r attr g).2.env_TT_PORT = "" ∧
      (do_set_port args open_r attr g).2.term_fd = -1 ∧
      spec_conn_state (do_set_port args open_r attr g).2 = .NotSelected ∧
      ∀ evs, do_connect evs (do_set_port args open_r attr g).2 =
        .returned 0 (emit (.stderr "No port selected\n") (do_set_port args open_r attr g).2)) ∧
    (open_r ≠ -1 →
      (do_set_port args open_r attr g).1 = 1 ∧
      (do_set_port args open_r attr g).2.term_name = some args ∧
      (do_set_port args open_r attr g).2.env_TT_PORT = args ∧
      (do_set_port args open_r attr g).2.term_fd = open_r ∧
      spec_conn_state (do_set_port args open_r attr g).2 = .Connected) := by
  have hrun : ∀ (evs : List Ev) (o : Outcome), o.state = none → run evs o = o := by
    intro evs o ho
    cases evs with
    | nil => rfl
    | cons e es =>
      cases o with
      | looping s => simp [Outcome.state] at ho
      | returned r g1 => rfl
      | exited c g1 => rfl
      | aborted g1 => rfl
  constructor
  · intro hopen
    have hres : do_set_port args open_r attr g =
        (0, emit (.stderr ("failed to open " ++ args ++ ": %s\n"))
          { (emit (.open_port args)
              (if g.term_fd ≠ -1 then
                emit (.close g.term_fd) { g with term_name := none, env_TT_PORT := "" }
               else { g with term_name := none, env_TT_PORT := "" })) with term_fd := open_r }) := by
      unfold do_set_port
      simp [hne, hq, hopen]
    have hname : (do_set_port args open_r attr g).2.term_name = none := by
      rw [hres]
      by_cases h : g.term_fd = -1 <;> simp [emit, h]
    have henv : (do_set_port args open_r attr g).2.env_TT_PORT = "" := by
      rw [hres]
      by_cases h : g.term_fd = -1 <;> simp [emit, h]
    have hfd : (do_set_port args open_r attr g).2.term_fd = -1 := by
      rw [hres]
      simp [emit, hopen]
    refine ⟨by rw [hres], hname, henv, hfd, by simp [spec_conn_state, hname], ?_⟩
    intro evs
    unfold do_connect
    have hrec : reconnect { g := (do_set_port args open_r attr g).2, escape_seen := 0 } =
        .returned 0 (emit (.stderr "No port selected\n") (do_set_port args open_r attr g).2) := by
      unfold reconnect
      simp [hname]
    rw [hrec]
    exact hrun evs _ rfl
  · intro hopen
    have hterm : ∀ g1 : Globals, (setup_term g1).2.term_name = g1.term_name ∧
        (setup_term g1).2.env_TT_PORT = g1.env_TT_PORT ∧
        (setup_term g1).2.term_fd = g1.term_fd := by
      intro g1
      unfold setup_term
      split_ifs <;> simp [emit]
    unfold do_set_port
    simp only [hne, hq, or_self, if_false, hopen]
    obtain ⟨e1, e2, e3⟩ := hterm
      { (emit (.open_port args)
          (if g.term_fd ≠ -1 then
            emit (.close g.term_fd) { g with term_name := none, env_TT_PORT := "" }
           else { g with term_name := none, env_TT_PORT := "" })) with
        term_fd := open_r, term_name := some args, env_TT_PORT := args, dev_attr := attr }
    refine ⟨trivial, e1, e2, e3, ?_⟩
    simp only [spec_conn_state]
    rw [e1, e3]
    simp [hopen]

/-- C10 (amended) at a concrete input: `set port /dev/ttyUSB0` at program
start, `open` failing. -/
theorem C10_set_port_records_on_success_witness :
    (do_set_port "/dev/ttyUSB0" (-1) cooked g_start).1 = 0 ∧
    (do_set_port "/dev/ttyUSB0" (-1) cooked g_start).2.term_name = none ∧
    (do_set_port "/dev/ttyUSB0" (-1) cooked g_start).2.term_fd = -1 :=
  have h := (C10_set_port_records_on_success "/dev/ttyUSB0" (-1) cooked g_start
    (by decide) (by decide)).1 rfl
  ⟨h.1, h.2.1, h.2.2.2.1⟩

/-! ## C11: the output flags of raw mode -/

/-- C11 (the claim fails): with `flag_nlcr = 0` and a console in its usual
line mode, the attributes `setup_tty` applies to descriptors 0 and 1 have
`c_oflag = OPOST`: output post-processing is enabled although newline
translation is off. -/
theorem C11_opost_without_nlcr :
    g_connected.flag_nlcr = 0 ∧
    (setup_tty g_connected).toOption.map (fun g => g.tty0.c_oflag) = some OPOST ∧
    (setup_tty g_connected).toOption.map (fun g => g.tty1.c_oflag) = some OPOST ∧
    (setup_tty g_connected).toOption.map (fun g => g.tty0.c_oflag &&& OPOST) ≠ some 0 := by
  refine ⟨rfl, rfl, rfl, by decide⟩

/-- C11 (amended): when the terminal calls succeed, the configuration
`setup_tty` derives and applies to descriptors 0 and 1 has `c_oflag` equal to
`OPOST` when `flag_nlcr` is 0 and to `OPOST | ONLCR` otherwise: `OPOST` is set
in both cases, and `ONLCR` is set if and only if `flag_nlcr` is set. -/
theorem C11_raw_oflag (g : Globals) (h0 : g.tty0_ok = true) (h1 : g.tty1_ok = true) :
    ∃ g1, setup_tty g = .ok g1 ∧
      g1.tty0 = raw_termios g.flag_nlcr g.tty0 ∧ g1.tty1 = raw_termios g.flag_nlcr g.tty0 ∧
      g1.tty0.c_oflag = (if g.flag_nlcr ≠ 0 then OPOST ||| ONLCR else OPOST) ∧
      g1.tty1.c_oflag = (if g.flag_nlcr ≠ 0 then OPOST ||| ONLCR else OPOST) ∧
      g1.tty0.c_oflag &&& OPOST = OPOST ∧
      (g1.tty0.c_oflag &&& ONLCR = ONLCR ↔ g.flag_nlcr ≠ 0) := by
  have hraw : (raw_termios g.flag_nlcr g.tty0).c_oflag =
      (if g.flag_nlcr ≠ 0 then OPOST ||| ONLCR else OPOST) := by
    unfold raw_termios
    by_cases hn : g.flag_nlcr = 0 <;> simp [hn]
  refine ⟨_, setup_tty_ok g h0 h1, rfl, rfl, hraw, hraw, ?_, ?_⟩
  · show (raw_termios g.flag_nlcr g.tty0).c_oflag &&& OPOST = OPOST
    rw [hraw]
    by_cases hn : g.flag_nlcr = 0
    · simp only [hn, ne_eq, not_true_eq_false, if_false]
      decide
    · simp only [hn, ne_eq, not_false_eq_true, if_true]
      decide
  · show (raw_termios g.flag_nlcr g.tty0).c_oflag &&& ONLCR = ONLCR ↔ g.flag_nlcr ≠ 0
    rw [hraw]
    by_cases hn : g.flag_nlcr = 0
    · simp only [hn, ne_eq, not_true_eq_false, if_false, iff_false]
      decide
    · simp only [hn, ne_eq, not_false_eq_true, if_true, iff_true]
      decide

/-- C11 (amended) at a concrete input: the console in line mode, `flag_nlcr`
set. -/
theorem C11_raw_oflag_witness :
    ∃ g1, setup_tty { g_connected with flag_nlcr := 1 } = .ok g1 ∧
      g1.tty0.c_oflag = OPOST ||| ONLCR ∧ g1.tty1.c_oflag = OPOST ||| ONLCR := by
  obtain ⟨g1, hs, _, _, h3, h4, _, _⟩ :=
    C11_raw_oflag { g_connected with flag_nlcr := 1 } rfl rfl
  exact ⟨g1, hs, h3, h4⟩

/-! ## C12: reconnecting -/

/-- With no device open, a console byte that is not the escape character,
read in the Idle state, changes nothing at all. -/
theorem console_half_dropped (ev : Ev) (s : LState) (hidle : s.escape_seen = 0)
    (hfd : s.g.term_fd = -1) (hkey : ev.plain_key s.g) :
    console_half ev s = .cont s := by
  by_cases hready : ev.stdin_ready = true
  · obtain ⟨b, hread, hne⟩ := hkey hready
    have hnp : ¬ s.escape_seen ≠ 0 := by simp [hidle]
    unfold console_half console_byte
    simp only [hready, if_true, hread, hnp, if_false, hne]
    cases ev.eagain <;> simp [retry_write, hfd]
  · unfold console_half
    simp [hready]

/-- An iteration with no device open in which `open` fails, where `FD_SET` is
not checked: whatever plain byte the console delivered, the only effect is the
call of `open`. -/
theorem relay_iteration_poll_fails (ev : Ev) (s : LState) (name : String)
    (hun : s.g.fd_set_checked = false)
    (hidle : s.escape_seen = 0) (hfd : s.g.term_fd = -1) (hname : s.g.term_name = some name)
    (hsel : 0 ≤ ev.select_r) (hkey : ev.plain_key s.g) (hopen : ev.open_r = -1) :
    relay_iteration ev s =
      .looping { s with g := { s.g with trace := s.g.trace ++ [Eff.open_port name] } } := by
  have hsel2 : ¬ ev.select_r < 0 := not_lt.mpr hsel
  rw [relay_iteration_unchecked ev s hun]
  unfold relay_pass
  simp only [hsel2, if_false, console_half_dropped ev s hidle hfd hkey]
  unfold device_half
  simp [hfd, hname, hopen, emit]

theorem run_poll_fails (evs : List Ev) (s : LState) (name : String)
    (hun : s.g.fd_set_checked = false)
    (hidle : s.escape_seen = 0) (hfd : s.g.term_fd = -1) (hname : s.g.term_name = some name)
    (hev : ∀ ev ∈ evs, 0 ≤ ev.select_r ∧ ev.plain_key s.g ∧ ev.open_r = -1) :
    run evs (.looping s) =
      .looping { s with g := { s.g with
        trace := s.g.trace ++ List.replicate evs.length (Eff.open_port name) } } := by
  induction evs generalizing s with
  | nil => simp [run]
  | cons ev evs ih =>
    obtain ⟨hsel, hkey, hopen⟩ := hev ev (List.mem_cons_self _ _)
    simp only [run]
    rw [relay_iteration_poll_fails ev s name hun hidle hfd hname hsel hkey hopen,
      ih { s with g := { s.g with trace := s.g.trace ++ [Eff.open_port name] } } hun hidle hfd
        hname
        (fun e he => hev e (List.mem_cons_of_mem _ he))]
    simp [List.replicate_succ]

/-- The device half of an iteration with no device open in which `open`
succeeds: the new descriptor is stored, `setup_term` configures it, and the
notice that the device is connected is printed between `restore_tty` and
`setup_tty`. -/
theorem device_half_opens (ev : Ev) (s : LState) (name : String)
    (hfd : s.g.term_fd = -1) (hname : s.g.term_name = some name) (hopen : ev.open_r ≠ -1)
    (h0 : s.g.tty0_ok = true) (h1 : s.g.tty1_ok = true) :
    ∃ g1, device_half ev s = .cont { s with g := g1 } ∧
      g1.term_fd = ev.open_r ∧ g1.term_name = some name ∧
      g1.dev_attr = (setup_term { s.g with dev_attr := ev.open_attr }).2.dev_attr ∧
      g1.trace = s.g.trace ++ (Eff.open_port name ::
        ((if s.g.dev_tc_ok = false then [Eff.perror "tcgetattr"] else []) ++
          [Eff.stderr (connected_msg s.g.escape_char)])) := by
  by_cases hd : s.g.dev_tc_ok = true
  · unfold device_half setup_term
    simp only [hfd, if_true, hname, emit, hopen, ne_eq, not_false_eq_true, hd,
      Bool.true_eq_false, if_false]
    simp only [restore_tty_ok, setup_tty_ok, h0, h1]
    exact ⟨_, rfl, rfl, rfl, rfl, by simp⟩
  · have hd2 : s.g.dev_tc_ok = false := by simpa using hd
    unfold device_half setup_term
    simp only [hfd, if_true, hname, emit, hopen, ne_eq, not_false_eq_true, hd2]
    simp only [restore_tty_ok, setup_tty_ok, h0, h1]
    exact ⟨_, rfl, rfl, rfl, rfl, by simp⟩

theorem written_to_open_ports (fd : Int) (name : String) (k : Nat) :
    written_to fd (List.replicate k (Eff.open_port name)) = [] := by
  induction k with
  | zero => rfl
  | succ k ih => simpa [List.replicate_succ, written_to] using ih

theorem plain_key_silent (ev : Ev) (g : Globals) : ev.silent.plain_key g := by
  intro h
  simp [Ev.silent] at h

/-- An iteration with no device open in which `open` succeeds, the console
delivering at most a plain byte, where `FD_SET` is not checked: the loop goes
on connected, and the state is the one the same iteration reaches with a
silent console. -/
theorem relay_iteration_poll_opens (ev : Ev) (s : LState) (name : String)
    (hun : s.g.fd_set_checked = false)
    (hidle : s.escape_seen = 0) (hfd : s.g.term_fd = -1) (hname : s.g.term_name = some name)
    (h0 : s.g.tty0_ok = true) (h1 : s.g.tty1_ok = true)
    (hsel : 0 ≤ ev.select_r) (hkey : ev.plain_key s.g) (hopen : ev.open_r ≠ -1) :
    ∃ g1, relay_iteration ev s = .looping { s with g := g1 } ∧
      relay_iteration ev.silent s = .looping { s with g := g1 } ∧
      g1.term_fd = ev.open_r ∧ g1.term_name = some name ∧
      g1.dev_attr = (setup_term { s.g with dev_attr := ev.open_attr }).2.dev_attr ∧
      g1.trace = s.g.trace ++ (Eff.open_port name ::
        ((if s.g.dev_tc_ok = false then [Eff.perror "tcgetattr"] else []) ++
          [Eff.stderr (connected_msg s.g.escape_char)])) := by
  obtain ⟨g1, hd, e1, e2, e3, e4⟩ := device_half_opens ev s name hfd hname hopen h0 h1
  have hsel2 : ¬ ev.select_r < 0 := not_lt.mpr hsel
  have hsel3 : ¬ ev.silent.select_r < 0 := hsel2
  have hds : device_half ev.silent s = device_half ev s := rfl
  refine ⟨g1, ?_, ?_, e1, e2, e3, e4⟩
  · rw [relay_iteration_unchecked ev s hun]
    unfold relay_pass
    simp only [hsel2, if_false, console_half_dropped ev s hidle hfd hkey, hd]
  · rw [relay_iteration_unchecked ev.silent s hun]
    unfold relay_pass
    simp only [hsel3, if_false,
      console_half_dropped ev.silent s hidle hfd (plain_key_silent ev s.g), hds, hd]

theorem setup_term_dev_attr_congr (g g2 : Globals) (ha : g.dev_attr = g2.dev_attr)
    (hk : g.dev_tc_ok = g2.dev_tc_ok) :
    (setup_term g).2.dev_attr = (setup_term g2).2.dev_attr := by
  unfold setup_term
  by_cases hd : g2.dev_tc_ok = false <;> simp [hk, hd, ha, emit]

/-- Where `FD_SET` is not checked: the relay loop running in the Idle escape
state with a port selected and no device open; `open` fails in the first N
iterations and succeeds in the next one, `select` succeeds and the console
delivers nothing or a byte other than the escape character in each of them
(the terminal calls succeeding).  Then the device stays closed through the first N iterations, and after
iteration N+1 the loop goes on with `term_fd` the new descriptor, which
`setup_term` was applied to, in the state Connected.  No byte was written to
any descriptor in these iterations, and the state reached is exactly the state
reached with a silent console: the bytes typed meanwhile are kept nowhere. -/
theorem reconnect_converges_unchecked (fails : List Ev) (ev : Ev) (s : LState)
    (name : String) (hun : s.g.fd_set_checked = false)
    (hidle : s.escape_seen = 0) (hfd : s.g.term_fd = -1) (hname : s.g.term_name = some name)
    (h0 : s.g.tty0_ok = true) (h1 : s.g.tty1_ok = true)
    (hfails : ∀ e ∈ fails, 0 ≤ e.select_r ∧ e.plain_key s.g ∧ e.open_r = -1)
    (hsel : 0 ≤ ev.select_r) (hkey : ev.plain_key s.g) (hopen : ev.open_r ≠ -1) :
    (∀ k, k ≤ fails.length →
      ∃ sk, run (fails.take k) (.looping s) = .looping sk ∧ sk.g.term_fd = -1 ∧
        spec_conn_state sk.g = .Disconnected ∧
        ∀ fd, written_to fd sk.g.trace = written_to fd s.g.trace) ∧
    ∃ s1, run (fails ++ [ev]) (.looping s) = .looping s1 ∧
      s1.escape_seen = 0 ∧ s1.g.term_fd = ev.open_r ∧ s1.g.term_name = some name ∧
      spec_conn_state s1.g = .Connected ∧
      s1.g.dev_attr = (setup_term { s.g with dev_attr := ev.open_attr }).2.dev_attr ∧
      s1.g.trace = s.g.trace ++ (List.replicate (fails.length + 1) (Eff.open_port name) ++
        ((if s.g.dev_tc_ok = false then [Eff.perror "tcgetattr"] else []) ++
          [Eff.stderr (connected_msg s.g.escape_char)])) ∧
      (∀ fd, written_to fd s1.g.trace = written_to fd s.g.trace) ∧
      run ((fails ++ [ev]).map Ev.silent) (.looping s) = .looping s1 := by
  have hrun_append : ∀ (xs ys : List Ev) (o : Outcome), run (xs ++ ys) o = run ys (run xs o) := by
    intro xs ys
    induction xs with
    | nil => intro o; rfl
    | cons x xs ih =>
      intro o
      cases o with
      | looping t => simpa [run] using ih _
      | returned r g => cases ys <;> simp [run]
      | exited c g => cases ys <;> simp [run]
      | aborted g => cases ys <;> simp [run]
  constructor
  · intro k _
    have hk := run_poll_fails (fails.take k) s name hun hidle hfd hname
      (fun e he => hfails e (List.mem_of_mem_take he))
    refine ⟨_, hk, hfd, ?_, ?_⟩
    · simp [spec_conn_state, hname, hfd]
    · intro fd
      simp [written_to_append, written_to_open_ports]
  · have hf := run_poll_fails fails s name hun hidle hfd hname hfails
    have hfs := run_poll_fails (fails.map Ev.silent) s name hun hidle hfd hname (by
      intro e he
      obtain ⟨e0, he0, rfl⟩ := List.mem_map.mp he
      exact ⟨(hfails e0 he0).1, plain_key_silent e0 s.g, (hfails e0 he0).2.2⟩)
    obtain ⟨g1, hit, hits, e1, e2, e3, e4⟩ := relay_iteration_poll_opens ev
      { s with g := { s.g with
        trace := s.g.trace ++ List.replicate fails.length (Eff.open_port name) } }
      name hun hidle hfd hname h0 h1 hsel hkey hopen
    refine ⟨{ s with g := g1 }, ?_, hidle, e1, e2, ?_, ?_, ?_, ?_, ?_⟩
    · rw [hrun_append, hf]
      simp only [run, hit]
    · simp [spec_conn_state, e2, e1, hopen]
    · exact e3.trans (setup_term_dev_attr_congr _ _ rfl rfl)
    · rw [e4]
      simp [List.replicate_succ', List.append_assoc]
    · intro fd
      rw [e4]
      by_cases hd : s.g.dev_tc_ok = false <;>
        simp [written_to_append, written_to_open_ports, written_to, hd]
    · rw [List.map_append, hrun_append, hfs]
      simp only [List.length_map, List.map_cons, List.map_nil, run, hits]

/-- C12 (failing input): where `FD_SET` is checked, `do_connect` entered on a
connected device; the read from the device fails, so the device is closed and
the loop polls for the port; in the next pass the operator types `C` and
`open` would return descriptor 4.  The claim (with N = 0) has the state
Connected after that pass.  The pass aborts the process in
`FD_SET(-1, &readfds)` instead: `open` is not called, `term_fd` is still -1,
and however many passes are asked for the result is the same. -/
theorem C12_abort_before_reopen :
    (do_connect [ev_dev_error] g_connected).state.map (fun s => spec_conn_state s.g) =
      some .Disconnected ∧
    ∃ g1, do_connect [ev_dev_error, ev_key_open 67 4] g_connected = .aborted g1 ∧
      g1.term_fd = -1 ∧ spec_conn_state g1 = .Disconnected ∧
      g1.trace = [Eff.stderr (connected_msg 28), Eff.perror "read term_fd",
        Eff.close 3, Eff.stderr (reconnect_msg "/dev/ttyS0"), Eff.stderr fd_set_msg] ∧
      ∀ evs, do_connect ([ev_dev_error, ev_key_open 67 4] ++ evs) g_connected = .aborted g1 := by
  refine ⟨rfl, _, rfl, rfl, rfl, rfl, ?_⟩
  intro evs
  cases evs <;> rfl

/-! ## The bound on the passes of `fuzzy` -/

theorem match_word_pattern (p i : List Char) :
    (match_word p i).2 = p ∨ (match_word p i).2.length < p.length := by
  induction p generalizing i with
  | nil => left; cases i <;> rfl
  | cons c cs ih =>
    cases i with
    | nil => left; rfl
    | cons d ds =>
      unfold match_word
      split_ifs
      · right
        rcases ih ds with h | h
        · rw [h]; simp
        · exact Nat.lt_succ_of_lt h
      · left; rfl

theorem next_word_shorter (p : List Char) (hp : p ≠ []) :
    ((p.dropWhile (fun ch => c_isspace ch = false)).dropWhile c_isspace).length < p.length := by
  cases p with
  | nil => exact absurd rfl hp
  | cons c cs =>
    have h1 : ∀ (l : List Char) (f : Char → Bool), (l.dropWhile f).length ≤ l.length := by
      intro l f
      induction l with
      | nil => simp
      | cons a as ih =>
        simp only [List.dropWhile_cons]
        split
        · exact Nat.le_succ_of_le ih
        · exact Nat.le_refl _
    by_cases hc : c_isspace c = true
    · have h2 : (c :: cs).dropWhile (fun ch => decide (c_isspace ch = false)) = c :: cs := by
        simp [List.dropWhile_cons, hc]
      rw [h2]
      simp only [List.dropWhile_cons, hc, if_true, List.length_cons]
      exact Nat.lt_succ_of_le (h1 _ _)
    · have hc2 : c_isspace c = false := by simpa using hc
      have h2 : (c :: cs).dropWhile (fun ch => decide (c_isspace ch = false)) =
          cs.dropWhile (fun ch => decide (c_isspace ch = false)) := by
        simp [List.dropWhile_cons, hc2]
      rw [h2]
      exact Nat.lt_succ_of_le ((h1 _ _).trans (h1 _ _))

/-- The result of `fuzzy_loop` does not depend on the bound once the bound
exceeds the length of the pattern: the loop of `fuzzy` always ends by itself. -/
theorem fuzzy_loop_bound (n m : Nat) (p i : List Char) (hn : p.length < n) (hm : p.length < m) :
    fuzzy_loop n p i = fuzzy_loop m p i := by
  induction n generalizing m p i with
  | zero => exact absurd hn (Nat.not_lt_zero _)
  | succ n ih =>
    cases m with
    | zero => exact absurd hm (Nat.not_lt_zero _)
    | succ m =>
      unfold fuzzy_loop
      by_cases hp : p = []
      · simp [hp]
      · simp only [hp, if_false]
        split_ifs
        · rfl
        · rfl
        · have hlt : (((match_word p i).2.dropWhile (fun ch => decide (c_isspace ch = false))).dropWhile
              c_isspace).length < p.length := by
            have h1 : ∀ (l : List Char) (f : Char → Bool), (l.dropWhile f).length ≤ l.length := by
              intro l f
              induction l with
              | nil => simp
              | cons a as ih2 =>
                simp only [List.dropWhile_cons]
                split
                · exact Nat.le_succ_of_le ih2
                · exact Nat.le_refl _
            rcases match_word_pattern p i with h | h
            · rw [h]
              exact next_word_shorter p hp
            · exact Nat.lt_of_le_of_lt ((h1 _ _).trans (h1 _ _)) h
          exact ih _ _ _ (by omega) (by omega)

/-! ## C13: nothing assigns `flag_hex` -/

theorem restore_tty_hex (g : Globals) : (tty_globals (restore_tty g)).flag_hex = g.flag_hex := by
  unfold restore_tty tcset0 tcset1
  by_cases h0 : g.tty0_ok = false <;> by_cases h1 : g.tty1_ok = false <;>
    by_cases hs : g.same_tty = true <;> simp [h0, h1, hs, emit, tty_globals]

theorem setup_tty_hex (g : Globals) : (tty_globals (setup_tty g)).flag_hex = g.flag_hex := by
  unfold setup_tty tcset0 tcset1
  by_cases h0 : g.tty0_ok = false <;> by_cases h1 : g.tty1_ok = false <;>
    by_cases hs : g.same_tty = true <;> simp [h0, h1, hs, emit, tty_globals]

theorem setup_term_hex (g : Globals) : (setup_term g).2.flag_hex = g.flag_hex := by
  unfold setup_term
  split_ifs <;> simp [emit]

theorem do_quit_hex (g : Globals) : (do_quit g).2.flag_hex = g.flag_hex := by
  unfold do_quit
  by_cases h1 : g.term_fd = -1 <;> by_cases h2 : g.log_fd = -1 <;> simp [emit, h1, h2]

/-- A call of `setup_tty` or `restore_tty` followed by more code: if neither
changes `flag_hex`, the whole does not. -/
theorem tty_then_hex (r : Except Globals Globals) (k : Globals → Phase) (v : Int)
    (hr : (tty_globals r).flag_hex = v)
    (hk : ∀ g, g.flag_hex = v → (k g).globals.flag_hex = v) :
    (match r with
      | .error g => Phase.exited 1 g
      | .ok g => k g).globals.flag_hex = v := by
  cases r with
  | error g => exact hr
  | ok g => exact hk g hr

theorem case_help_hex (s : LState) : (case_help s).globals.flag_hex = s.g.flag_hex := by
  unfold case_help
  refine tty_then_hex _ _ _ (restore_tty_hex s.g) (fun g hg => ?_)
  exact tty_then_hex _ _ _ ((setup_tty_hex _).trans (by simpa [emit] using hg))
    (fun g2 hg2 => hg2)

theorem case_shell_hex (s : LState) : (case_shell s).globals.flag_hex = s.g.flag_hex := by
  unfold case_shell
  refine tty_then_hex _ _ _ (restore_tty_hex s.g) (fun g hg => ?_)
  exact tty_then_hex _ _ _ ((setup_tty_hex _).trans (by simpa [emit] using hg))
    (fun g2 hg2 => hg2)

theorem case_q_hex (s : LState) : (case_q s).globals.flag_hex = s.g.flag_hex := by
  unfold case_q
  exact tty_then_hex _ (fun g => .exited (do_quit g).1 (do_quit g).2) _ (restore_tty_hex s.g)
    (fun g hg => (do_quit_hex g).trans hg)

theorem case_b_hex (ev : Ev) (s : LState) : (case_b ev s).globals.flag_hex = s.g.flag_hex := by
  unfold case_b
  simp only [Phase.globals, emit]
  split_ifs <;> rfl

theorem control_switch_hex (ev : Ev) (c : Int) (s : LState) :
    (control_switch ev c s).globals.flag_hex = s.g.flag_hex := by
  unfold control_switch
  simp only []
  split_ifs
  · exact case_help_hex s
  · exact case_shell_hex s
  · rfl
  · exact case_b_hex ev s
  · exact case_q_hex s
  · rfl

theorem literal_escape_hex (ev : Ev) (b : Byte) (s : LState) :
    (literal_escape ev b s).globals.flag_hex = s.g.flag_hex := by
  unfold literal_escape
  simp only []
  split_ifs <;> rfl

theorem retry_write_hex (ev : Ev) (b : Byte) (k : Nat) (s : LState) :
    (retry_write ev b k s).globals.flag_hex = s.g.flag_hex := by
  induction k generalizing s with
  | zero =>
    unfold retry_write
    split_ifs <;> rfl
  | succ k ih =>
    unfold retry_write
    split_ifs
    · exact ih _
    · rfl

theorem console_half_hex (ev : Ev) (s : LState) :
    (console_half ev s).globals.flag_hex = s.g.flag_hex := by
  unfold console_half
  split_ifs
  · cases hr : ev.stdin_read with
    | err => rfl
    | eof => rfl
    | byte b =>
      simp only []
      unfold console_byte
      simp only []
      split_ifs
      · exact literal_escape_hex ev b _
      · exact control_switch_hex ev _ _
      · rfl
      · exact retry_write_hex ev b _ s
  · rfl

theorem device_half_hex (ev : Ev) (s : LState) :
    (device_half ev s).globals.flag_hex = s.g.flag_hex := by
  unfold device_half
  split_ifs with hfd hready
  · cases hn : s.g.term_name with
    | none => rfl
    | some name =>
      simp only []
      split_ifs with hopen
      · refine tty_then_hex _ _ _ ((restore_tty_hex _).trans ((setup_term_hex _).trans rfl))
          (fun g hg => ?_)
        exact tty_then_hex _ _ _ ((setup_tty_hex _).trans (by simpa [emit] using hg))
          (fun g2 hg2 => hg2)
      · rfl
  · cases hr : ev.term_read with
    | none => rfl
    | some data =>
      simp only []
      split_ifs <;> simp [Phase.globals, emit, hex_trace_eq]
  · rfl

theorem reconnect_hex (s : LState) : (reconnect s).globals.flag_hex = s.g.flag_hex := by
  unfold reconnect
  cases hn : s.g.term_name with
  | none => rfl
  | some name =>
    simp only []
    have hs := setup_tty_hex (if s.g.term_fd = -1 then emit (Eff.stderr (reconnect_msg name)) s.g
      else emit (Eff.stderr (connected_msg s.g.escape_char)) s.g)
    have hg : (if s.g.term_fd = -1 then emit (Eff.stderr (reconnect_msg name)) s.g
      else emit (Eff.stderr (connected_msg s.g.escape_char)) s.g).flag_hex = s.g.flag_hex := by
      split_ifs <;> rfl
    rw [hg] at hs
    cases hr : setup_tty (if s.g.term_fd = -1 then emit (Eff.stderr (reconnect_msg name)) s.g
      else emit (Eff.stderr (connected_msg s.g.escape_char)) s.g) with
    | error g1 => rw [hr] at hs; exact hs
    | ok g1 => rw [hr] at hs; exact hs

theorem do_close_hex (tc : Int) (s : LState) :
    (do_close tc s).globals.flag_hex = s.g.flag_hex := by
  unfold do_close
  have hr := restore_tty_hex s.g
  cases h : restore_tty s.g with
  | error g1 => rw [h] at hr; exact hr
  | ok g1 =>
    rw [h] at hr
    simp only []
    split_ifs
    · exact (reconnect_hex _).trans hr
    · exact hr

theorem relay_pass_hex (ev : Ev) (s : LState) :
    (relay_pass ev s).globals.flag_hex = s.g.flag_hex := by
  unfold relay_pass
  split_ifs
  · exact do_close_hex 1 _
  · have hc := console_half_hex ev s
    cases hcp : console_half ev s with
    | exited code g => rw [hcp] at hc; exact hc
    | brk s1 => rw [hcp] at hc; exact (do_close_hex 1 s1).trans hc
    | close0 s1 => rw [hcp] at hc; exact (do_close_hex 0 s1).trans hc
    | cont s1 =>
      rw [hcp] at hc
      have hd := device_half_hex ev s1
      simp only []
      cases hdp : device_half ev s1 with
      | exited code g => rw [hdp] at hd; exact hd.trans hc
      | brk s2 => rw [hdp] at hd; exact ((do_close_hex 1 s2).trans hd).trans hc
      | close0 s2 => rw [hdp] at hd; exact ((do_close_hex 0 s2).trans hd).trans hc
      | cont s2 => rw [hdp] at hd; exact hd.trans hc

theorem relay_iteration_hex (ev : Ev) (s : LState) :
    (relay_iteration ev s).globals.flag_hex = s.g.flag_hex := by
  unfold relay_iteration
  split_ifs
  · rfl
  · exact relay_pass_hex ev s

theorem run_hex (evs : List Ev) (o : Outcome) :
    (run evs o).globals.flag_hex = o.globals.flag_hex := by
  induction evs generalizing o with
  | nil => simp [run]
  | cons ev evs ih =>
    cases o with
    | looping s => exact (ih _).trans (relay_iteration_hex ev s)
    | returned r g => simp [run]
    | exited code g => simp [run]
    | aborted g => simp [run]

theorem do_connect_hex (evs : List Ev) (g : Globals) :
    (do_connect evs g).globals.flag_hex = g.flag_hex :=
  (run_hex evs _).trans (reconnect_hex _)

theorem print_matching_hex (input : List Char) (cmds : List Command) (g : Globals) :
    (print_matching input cmds g).flag_hex = g.flag_hex := by
  induction cmds generalizing g with
  | nil => rfl
  | cons cmd rest ih =>
    unfold print_matching
    split
    · exact (ih _).trans rfl
    · exact ih g

theorem speed_usage_hex (tab : List (Int × Int)) (i : Nat) (g : Globals) :
    (speed_usage tab i g).flag_hex = g.flag_hex := by
  induction tab generalizing i g with
  | nil => rfl
  | cons sp rest ih =>
    unfold speed_usage
    by_cases h0 : sp.1 = 0
    · simp [h0]
    · simp only [h0, if_false]
      refine (ih _ _).trans ?_
      by_cases h1 : i = 0 <;> by_cases h2 : i % 10 = 0 <;> simp [emit, h1, h2]

theorem do_help_hex (args : String) (g : Globals) : (do_help args g).2.flag_hex = g.flag_hex :=
  print_matching_hex _ _ g

theorem do_set_help_hex (g : Globals) : (do_set_help g).2.flag_hex = g.flag_hex :=
  print_matching_hex _ _ g

theorem do_log_hex (args : String) (env : CmdEnv) (g : Globals) :
    (do_log args env g).2.flag_hex = g.flag_hex := by
  unfold do_log
  by_cases hl : g.log_fd = -1 <;> by_cases ho : env.open_r = -1 <;>
    (repeat' split) <;> simp_all [emit]

theorem do_set_break_hex (args : String) (env : CmdEnv) (g : Globals) :
    (do_set_break args env g).2.flag_hex = g.flag_hex := by
  unfold do_set_break
  simp only []
  split_ifs <;> simp [emit]

theorem do_set_escape_hex (args : String) (c : Int) (rest : List Char) (g : Globals) :
    (do_set_escape args c rest g).2.flag_hex = g.flag_hex := by
  unfold do_set_escape
  simp only []
  split_ifs <;> simp [emit]

theorem do_set_flow_hex (args : String) (g : Globals) :
    (do_set_flow args g).2.flag_hex = g.flag_hex := by
  unfold do_set_flow
  simp only []
  split_ifs <;> simp [emit]

theorem do_set_nlcr_hex (args : String) (g : Globals) :
    (do_set_nlcr args g).2.flag_hex = g.flag_hex := by
  unfold do_set_nlcr
  split_ifs <;> simp [emit]

theorem do_set_modem_hex (args : String) (g : Globals) :
    (do_set_modem args g).2.flag_hex = g.flag_hex := by
  unfold do_set_modem
  simp only []
  split_ifs <;> simp [emit]

theorem do_set_hex_hex (args : String) (g : Globals) :
    (do_set_hex args g).2.flag_hex = g.flag_hex := by
  unfold do_set_hex
  simp only []
  split_ifs <;> simp [emit]

theorem do_set_port_hex (args : String) (open_r : Int) (attr : Termios) (g : Globals) :
    (do_set_port args open_r attr g).2.flag_hex = g.flag_hex := by
  unfold do_set_port
  split
  · rfl
  · by_cases hf : g.term_fd = -1 <;> by_cases ho : open_r = -1 <;>
      simp [hf, ho, emit, setup_term_hex]

theorem set_modem_line_hex (line : Nat) (name args : String) (env : CmdEnv) (g : Globals) :
    (set_modem_line line name args env g).2.flag_hex = g.flag_hex := by
  unfold set_modem_line
  simp only []
  split_ifs <;> simp [emit]

theorem do_set_speed_hex (args : String) (env : CmdEnv) (g : Globals) :
    (do_set_speed args env g).2.flag_hex = g.flag_hex := by
  unfold do_set_speed
  simp only []
  split_ifs <;> simp [emit, speed_usage_hex]

theorem do_shell_hex (args : String) (env : CmdEnv) (g : Globals) :
    (do_shell args env g).2.flag_hex = g.flag_hex := by
  unfold do_shell
  split_ifs <;> rfl

theorem do_show_hex (env : CmdEnv) (g : Globals) : (do_show env g).2.flag_hex = g.flag_hex := by
  have he : ∀ (e : Eff) (g1 : Globals), (emit e g1).flag_hex = g1.flag_hex := fun _ _ => rfl
  unfold do_show
  simp only []
  split_ifs <;> simp only [he]

theorem call_hex (f : Cmd) (args : String) (env : CmdEnv) (g : Globals) :
    (call f args env g).globals.flag_hex = g.flag_hex := by
  cases f
  · exact do_connect_hex env.evs g
  · exact do_help_hex args g
  · exact do_log_hex args env g
  · exact do_quit_hex g
  · exact do_set_help_hex g
  · exact do_set_break_hex args env g
  · exact do_set_escape_hex args _ _ g
  · exact do_set_flow_hex args g
  · exact do_set_hex_hex args g
  · exact do_set_modem_hex args g
  · exact do_set_nlcr_hex args g
  · exact do_set_port_hex args _ _ g
  · exact set_modem_line_hex _ _ args env g
  · exact set_modem_line_hex _ _ args env g
  · exact do_set_speed_hex args env g
  · exact do_shell_hex args env g
  · exact do_show_hex env g

theorem handle_hex (line : List Char) (env : CmdEnv) (g : Globals) :
    (handle line env g).globals.flag_hex = g.flag_hex := by
  unfold handle
  simp only []
  split
  · rfl
  · split_ifs
    · exact do_help_hex _ g
    · exact do_shell_hex _ env g
    · split
      · exact (print_matching_hex _ _ _).trans rfl
      · exact call_hex _ _ env g
      · rfl

theorem script_lines_hex (name : String) (lines : List Line) (n : Nat) (g : Globals) :
    (script_lines name lines n g).globals.flag_hex = g.flag_hex := by
  induction lines generalizing n g with
  | nil => rfl
  | cons l rest ih =>
    unfold script_lines
    simp only []
    have hh := handle_hex l.text l.env (emit (.printf (String.mk l.text)) g)
    cases hr : handle l.text l.env (emit (.printf (String.mk l.text)) g) with
    | looping s => rw [hr] at hh; exact hh
    | exited code g1 => rw [hr] at hh; exact hh
    | aborted g1 => rw [hr] at hh; exact hh
    | returned r g1 =>
      rw [hr] at hh
      simp only []
      split_ifs
      · exact hh
      · exact (ih _ _).trans hh

theorem script_hex (name fn : String) (file : Option (List Line)) (g : Globals) :
    (script name fn file g).globals.flag_hex = g.flag_hex := by
  unfold script
  cases file with
  | none => rfl
  | some lines => exact script_lines_hex name lines 0 _

theorem prompt_loop_hex (input : List Input) (g : Globals) :
    (prompt_loop input g).globals.flag_hex = g.flag_hex := by
  induction input generalizing g with
  | nil => rfl
  | cons i rest ih =>
    cases i with
    | eof => exact do_quit_hex g
    | line l =>
      unfold prompt_loop
      have hh := handle_hex l.text l.env g
      cases hr : handle l.text l.env g with
      | looping s => rw [hr] at hh; exact hh
      | exited code g1 => rw [hr] at hh; exact hh
      | aborted g1 => rw [hr] at hh; exact hh
      | returned r g1 =>
        rw [hr] at hh
        exact (ih _).trans hh

theorem tt_main_hex (argv : List String) (fn : String) (file : Option (List Line))
    (input : List Input) (os : Globals) :
    (tt_main argv fn file input os).globals.flag_hex = 0 := by
  unfold tt_main
  simp only []
  split_ifs
  · rfl
  · cases argv with
    | nil => exact prompt_loop_hex input _
    | cons name rest =>
      simp only []
      have hs := script_hex name fn file
        { static_init os with term_fd := -1, log_fd := -1, env_TT_PORT := "" }
      cases hr : script name fn file
        { static_init os with term_fd := -1, log_fd := -1, env_TT_PORT := "" } with
      | looping s => rw [hr] at hs; exact hs
      | exited code g1 => rw [hr] at hs; exact hs
      | aborted g1 => rw [hr] at hs; exact hs
      | returned r g1 =>
        rw [hr] at hs
        exact (prompt_loop_hex input _).trans hs

theorem do_set_hex_as_modem (args : String) (g : Globals) :
    (do_set_hex args g).1 = (do_set_modem args g).1 ∧
    (do_set_hex args g).2.dev_attr = (do_set_modem args g).2.dev_attr ∧
    ((do_set_hex args g).1 = 1 → do_set_hex args g = do_set_modem args g) := by
  unfold do_set_hex do_set_modem
  simp only []
  split_ifs <;> simp [emit]

theorem do_set_hex_on (g : Globals) (hfd : g.term_fd ≠ -1) (hok : g.dev_tc_ok = true) :
    do_set_hex "on" g = (1, { g with dev_attr := { g.dev_attr with
      c_cflag := clear_bits g.dev_attr.c_cflag (CLOCAL ||| HUPCL) ||| HUPCL } }) := by
  have hon : says_on "on" = true := by decide
  unfold do_set_hex
  simp [hon, hfd, hok]

/-- With `flag_hex = 0` a chunk read from the device goes to descriptor 1 and
to the log descriptor and nowhere else: the block `if (flag_hex)` is skipped. -/
theorem device_half_no_hex (ev : Ev) (s : LState) (data : List Byte)
    (hhex : s.g.flag_hex = 0) (hfd : s.g.term_fd ≠ -1) (hready : ev.term_ready = true)
    (hread : ev.term_read = some data) (hlen : (data.take 1024).length ≠ 0)
    (hout : ev.stdout_n = ((data.take 1024).length : Int)) :
    device_half ev s = .cont { s with g :=
      (if s.g.log_fd ≠ 0 then
        emit (.write s.g.log_fd (data.take 1024)) (emit (.write 1 (data.take 1024)) s.g)
       else emit (.write 1 (data.take 1024)) s.g) } := by
  have hout2 : ¬ ev.stdout_n ≠ ((List.take 1024 data).length : Int) := by simp [hout]
  unfold device_half
  simp only [hfd, if_false, hready, if_true, hread, hlen, hout2]
  by_cases hlog : s.g.log_fd = 0 <;> simp [emit, hlog, hhex]

/-- C13: no command assigns `flag_hex`.  Whatever the arguments of `main`, the
script, the lines typed at the prompt and the answers of the outside world
during the commands and relay sessions, `flag_hex` is 0 wherever the program
stands (at the prompt, inside the relay loop, or exited).  `do_set_hex` leaves
`flag_hex` alone; it returns what `do_set_modem` returns and leaves the device
attributes `do_set_modem` leaves, and where it succeeds the two results are
equal: `set hex on` on an open device clears `CLOCAL` and `HUPCL` and sets
`HUPCL`.  With `flag_hex = 0` the relay loop sends a chunk from the device to
descriptor 1 and to the log only, without the hex trace. -/
theorem C13_flag_hex_never_set :
    (∀ (argv : List String) (fn : String) (file : Option (List Line)) (input : List Input)
        (os : Globals), (tt_main argv fn file input os).globals.flag_hex = 0) ∧
    (∀ (args : String) (g : Globals), (do_set_hex args g).2.flag_hex = g.flag_hex) ∧
    (∀ (args : String) (g : Globals),
      (do_set_hex args g).1 = (do_set_modem args g).1 ∧
      (do_set_hex args g).2.dev_attr = (do_set_modem args g).2.dev_attr ∧
      ((do_set_hex args g).1 = 1 → do_set_hex args g = do_set_modem args g)) ∧
    (∀ g : Globals, g.term_fd ≠ -1 → g.dev_tc_ok = true →
      do_set_hex "on" g = (1, { g with dev_attr := { g.dev_attr with
        c_cflag := clear_bits g.dev_attr.c_cflag (CLOCAL ||| HUPCL) ||| HUPCL } }) ∧
      do_set_modem "on" g = do_set_hex "on" g) ∧
    (∀ (ev : Ev) (s : LState) (data : List Byte),
      s.g.flag_hex = 0 → s.g.term_fd ≠ -1 → ev.term_ready = true →
      ev.term_read = some data → (data.take 1024).length ≠ 0 →
      ev.stdout_n = ((data.take 1024).length : Int) →
      device_half ev s = .cont { s with g :=
        (if s.g.log_fd ≠ 0 then
          emit (.write s.g.log_fd (data.take 1024)) (emit (.write 1 (data.take 1024)) s.g)
         else emit (.write 1 (data.take 1024)) s.g) }) := by
  refine ⟨tt_main_hex, do_set_hex_hex, do_set_hex_as_modem, ?_, device_half_no_hex⟩
  intro g hfd hok
  have hon := do_set_hex_on g hfd hok
  refine ⟨hon, ?_⟩
  have h1 : (do_set_hex "on" g).1 = 1 := by rw [hon]
  exact ((do_set_hex_as_modem "on" g).2.2 h1).symm

/-- C13 at a concrete input: `set port /dev/ttyS0`, `set hex on`, `connect`,
and the device delivers the byte `ff`.  `flag_hex` is still 0, the device has
the control flags `set modem on` gives, and descriptor 1 receives the byte
alone. -/
theorem C13_flag_hex_never_set_witness :
    (tt_main [] "" none hex_session g_start).globals.flag_hex = 0 ∧
    (tt_main [] "" none hex_session g_start).globals.dev_attr.c_cflag =
      clear_bits (setup_term { g_start with dev_attr := cooked }).2.dev_attr.c_cflag
        (CLOCAL ||| HUPCL) ||| HUPCL ∧
    written_to 1 (tt_main [] "" none hex_session g_start).globals.trace = [255] :=
  ⟨C13_flag_hex_never_set.1 [] "" none hex_session g_start, by decide, by decide⟩

end TT
